import Mathlib

/-!
Verification development for `apply_theme.py` (OpenBench Theme Manager).

The tool rewrites color values in a CSS stylesheet by Python `re.sub`
substitution, keeps timestamped backups of the CSS files, and bumps a
cache-busting version token in a config file.

We embed the program shallowly: text is `List Char`; each Python regex used by
the script is translated into a small pattern AST covering exactly the regex
constructs the script uses (literals, `\s*`, `[^}]*`, `[^;]*?`, `[^']+`,
`\d+`, `[0-9A-Fa-f]\x7b6\x7d`, and a single capture group), with Python's
backtracking semantics (greedy = longest first, lazy = shortest first) and
`re.sub`'s global left-to-right replacement.  Filesystem state is an explicit
structure of association lists.  Fallible operations (Python exceptions)
return `Option` / `Except`.
-/

set_option maxRecDepth 100000
set_option maxHeartbeats 40000000

namespace OBTheme

/-- `{` as a character (written via its code point). -/
def lbrace : Char := Char.ofNat 123

/-- `}` as a character (written via its code point). -/
def rbrace : Char := Char.ofNat 125

/-- `'` (single quote) as a character (written via its code point). -/
def squote : Char := Char.ofNat 39

/-- Python `\s` (ASCII part: space, tab, newline, carriage return, vertical
tab, form feed).  The script only ever pattern-matches ASCII CSS/config text,
so the Unicode extension of `\s` is irrelevant here. -/
def isWs (c : Char) : Bool :=
  c = ' ' || c = '\t' || c = '\n' || c = '\r' || c = Char.ofNat 11 || c = Char.ofNat 12

/-- The character class `[0-9A-Fa-f]` used in every color pattern. -/
def isHexDig (c : Char) : Bool :=
  ('0' ≤ c && c ≤ '9') || ('a' ≤ c && c ≤ 'f') || ('A' ≤ c && c ≤ 'F')

/-- Python `\d` (ASCII digits; the version tokens are ASCII). -/
def isDig (c : Char) : Bool := '0' ≤ c && c ≤ '9'

/-- Quantifier on a character class, as used in the script's regexes. -/
inductive Quant where
  /-- greedy `*` -/
  | star : Quant
  /-- lazy `*?` -/
  | lazy : Quant
  /-- greedy `+` -/
  | plus : Quant
  /-- exact repetition `\x7bn\x7d` -/
  | rep : Nat → Quant

/-- One element of a regex: a literal run of characters, or a quantified
character class. -/
inductive RElem where
  | lit : List Char → RElem
  | cls : (Char → Bool) → Quant → RElem

/-- First `some` result of `f` over the list, in order (backtracking
priority). -/
def firstSome (l : List Nat) (f : Nat → Option (List Nat)) : Option (List Nat) :=
  l.findSome? f

/-- Match a sequence of regex elements against the start of `s`, returning
the list of lengths consumed by each element (in order) for the
highest-priority successful alternative — Python's backtracking order:
greedy classes try longest first, lazy ones shortest first. -/
def matchElems : (elems : List RElem) → (s : List Char) → Option (List Nat)
  | [], _ => some []
  | .lit l :: rest, s =>
    if l.isPrefixOf s then
      (matchElems rest (s.drop l.length)).map (fun ns => l.length :: ns)
    else
      none
  | .cls p q :: rest, s =>
    let m := (s.takeWhile p).length
    let cands : List Nat :=
      match q with
      | .star => (List.range (m + 1)).reverse
      | .lazy => List.range (m + 1)
      | .plus => ((List.range (m + 1)).reverse).filter (fun i => decide (1 ≤ i))
      | .rep n => if n ≤ m then [n] else []
    firstSome cands (fun i => (matchElems rest (s.drop i)).map (fun ns => i :: ns))
  termination_by structural elems _ => elems

/-- A pattern with (at most) one capture group: `pre (grp) post`.
Patterns without a group put everything in `pre`. -/
structure Pattern where
  pre : List RElem
  grp : List RElem
  post : List RElem

/-- Try to match `p` at the start of `s` (Python `re.match` semantics: a
prefix match).  On success returns `(preLen, grpLen, totalLen)`. -/
def matchPat (p : Pattern) (s : List Char) : Option (Nat × Nat × Nat) :=
  (matchElems (p.pre ++ p.grp ++ p.post) s).map (fun ns =>
    let preL := (ns.take p.pre.length).sum
    let grpL := ((ns.drop p.pre.length).take p.grp.length).sum
    (preL, grpL, ns.sum))

/-- A substitution rule: pattern plus replacement.  The replacement string of
every rule in the script is either plain text (`keepGroup = false`) or
`\1` followed by plain text (`keepGroup = true`), so we model it as an
optional group backreference followed by literal `tail`. -/
structure Rule where
  pat : Pattern
  keepGroup : Bool
  tail : List Char

/-- Worker for `reSub`, structurally recursive on a fuel argument so that the
kernel can evaluate it.  Every recursive call shortens the text by at least
one character, so fuel `s.length` is always sufficient: the fuel-0 branch is
reachable only with empty remaining text, where it agrees with the main
branch. -/
def reSubAux (r : Rule) : Nat → List Char → List Char
  | 0, s => s
  | fuel + 1, s =>
    match s with
    | [] => []
    | c :: cs =>
      match matchPat r.pat (c :: cs) with
      | some (preL, grpL, tot) =>
        if tot = 0 then
          c :: reSubAux r fuel cs
        else
          (if r.keepGroup then ((c :: cs).drop preL).take grpL else [])
            ++ r.tail ++ reSubAux r fuel ((c :: cs).drop tot)
      | none => c :: reSubAux r fuel cs

/-- Python `re.sub`: scan left to right, replace every non-overlapping match,
resume after each match.  (The script's patterns all contain nonempty
literals and a mandatory 6-hex-digit tail, so they can never match the empty
string; the zero-length-match branch of the worker just skips a character and
is never exercised by the rules we build.) -/
def reSub (r : Rule) (s : List Char) : List Char :=
  reSubAux r s.length s

/-- Worker for `reSearch`, fuel-based for the same reason as `reSubAux`. -/
def reSearchAux (p : Pattern) : Nat → List Char → Option (List Char)
  | 0, s =>
    (matchPat p s).map (fun r => (s.drop r.1).take r.2.1)
  | fuel + 1, s =>
    match matchPat p s with
    | some (preL, grpL, _) => some ((s.drop preL).take grpL)
    | none =>
      match s with
      | [] => none
      | _ :: cs => reSearchAux p fuel cs

/-- Python `re.search`, returning the text captured by the group of the first
(leftmost) match. -/
def reSearch (p : Pattern) (s : List Char) : Option (List Char) :=
  reSearchAux p s.length s

/-- Literal regex element from a string. -/
def litE (s : String) : RElem := .lit s.data

/-- `\s*` -/
def wsStar : RElem := .cls isWs .star

/-- `#` followed by `[0-9A-Fa-f]\x7b6\x7d` is split as a literal plus this. -/
def hex6 : RElem := .cls isHexDig (.rep 6)

/-- `[^}]*` -/
def notRBStar : RElem := .cls (fun c => !(c = rbrace)) .star

/-- `[^;]*?` -/
def notSemiLazy : RElem := .cls (fun c => !(c = ';')) .lazy

/-- CSS-variable rule (apply_theme.py lines 130–138):
pattern `--<var>:\s*#[0-9A-Fa-f]\x7b6\x7d`, replacement `--<var>: <color>`.
(The script splices `var_name` into the regex verbatim; we treat it as a
literal, which is faithful for variable names free of regex
metacharacters — true of CSS custom property names.) -/
def varRule (varName color : String) : Rule :=
  { pat := { pre := [litE ("--" ++ varName ++ ":"), wsStar, litE "#", hex6],
             grp := [], post := [] },
    keepGroup := false,
    tail := ("--" ++ varName ++ ": " ++ color).data }

/-- A structural rule `(<grpElems>)#[0-9A-Fa-f]\x7b6\x7d` with replacement
`\1<color>`. -/
def structRule (grpElems : List RElem) (color : String) : Rule :=
  { pat := { pre := [], grp := grpElems, post := [litE "#", hex6] },
    keepGroup := true,
    tail := color.data }

/-- Group of `(a:link, a:visited, a:hover, a:active\s*\{[^}]*color:\s*)` (line 145). -/
def linkGrp : List RElem :=
  [litE "a:link, a:visited, a:hover, a:active", wsStar, .lit [lbrace], notRBStar,
   litE "color:", wsStar]

/-- Group of `(#sidebar li:hover\s*\{[^}]*background-color:\s*)` (line 151). -/
def sidebarGrp : List RElem :=
  [litE "#sidebar li:hover", wsStar, .lit [lbrace], notRBStar,
   litE "background-color:", wsStar]

/-- Group of `(\.stripes th\s*\{[^}]*background-color:\s*)` (line 153). -/
def stripesGrp : List RElem :=
  [litE ".stripes th", wsStar, .lit [lbrace], notRBStar, litE "background-color:", wsStar]

/-- Group of `(\.table-header th\s*\{[^}]*background-color:\s*)` (line 154). -/
def tableHeaderGrp : List RElem :=
  [litE ".table-header th", wsStar, .lit [lbrace], notRBStar,
   litE "background-color:", wsStar]

/-- Group of `(\.table-small-header th\s*\{[^}]*background-color:\s*)` (line 155). -/
def tableSmallHeaderGrp : List RElem :=
  [litE ".table-small-header th", wsStar, .lit [lbrace], notRBStar,
   litE "background-color:", wsStar]

/-- Group of `(\.table-spacer-small th[^}]*background-color:\s*)` (line 156;
note: no `\s*\{` here, the source pattern goes straight into `[^}]*`). -/
def tableSpacerGrp : List RElem :=
  [litE ".table-spacer-small th", notRBStar, litE "background-color:", wsStar]

/-- Group of `(#content td\s*\{[^}]*border-bottom:[^;]*?)` (line 158). -/
def contentTdGrp : List RElem :=
  [litE "#content td", wsStar, .lit [lbrace], notRBStar, litE "border-bottom:", notSemiLazy]

/-- Group of `(\.hoverable tr:nth-child\(odd\):hover[^}]*background-color:\s*)` (line 160). -/
def hoverOddGrp : List RElem :=
  [litE ".hoverable tr:nth-child(odd):hover", notRBStar, litE "background-color:", wsStar]

/-- Group of `(\.hoverable tr:nth-child\(even\):hover[^}]*background-color:\s*)` (line 161). -/
def hoverEvenGrp : List RElem :=
  [litE ".hoverable tr:nth-child(even):hover", notRBStar, litE "background-color:", wsStar]

/-- Group of `(\.engine-options-popup\s*\{[^}]*background-color:\s*)` (line 163). -/
def popupBgGrp : List RElem :=
  [litE ".engine-options-popup", wsStar, .lit [lbrace], notRBStar,
   litE "background-color:", wsStar]

/-- Group of `(\.engine-options-popup\s*\{[^}]*border:[^;]*?)` (line 164). -/
def popupBorderGrp : List RElem :=
  [litE ".engine-options-popup", wsStar, .lit [lbrace], notRBStar,
   litE "border:", notSemiLazy]

/-- Group of `(\.<btnClass>\s*\{[^}]*background-color:\s*)` (line 176). -/
def btnBaseGrp (btnClass : String) : List RElem :=
  [litE ("." ++ btnClass), wsStar, .lit [lbrace], notRBStar,
   litE "background-color:", wsStar]

/-- Group of `(\.<btnClass>:hover\s*\{[^}]*background-color:\s*)` (line 181). -/
def btnHoverGrp (btnClass : String) : List RElem :=
  [litE ("." ++ btnClass ++ ":hover"), wsStar, .lit [lbrace], notRBStar,
   litE "background-color:", wsStar]

/-- The `colors` object of a theme JSON file.  The five sections mirror
`theme['colors'][...]`; each is an association list in JSON insertion order
(Python dicts preserve it).  Individual keys may be absent, which models a
`KeyError` on direct subscription (`ui[...]`, `buttons[...]`,
`links["default"]`). -/
structure Theme where
  backgrounds : List (String × String)
  text : List (String × String)
  ui_elements : List (String × String)
  links : List (String × String)
  buttons : List (String × String)

/-- Python dict subscription on a JSON object (keys assumed distinct, as in a
JSON object). -/
def getK (k : String) (l : List (String × String)) : Option String :=
  (l.find? (fun p => p.1 = k)).map (·.2)

/-- The eleven fixed structural rules (lines 144–165), in source order.
`none` models the `KeyError` raised when a subscripted `links`/`ui_elements`
key is absent (the subscriptions happen while the replacement list is being
built, before anything is written to disk). -/
def structuralRules (t : Theme) : Option (List Rule) := do
  let linkDefault ← getK "default" t.links
  let sidebarHover ← getK "sidebar_hover" t.ui_elements
  let tableHeaderBg ← getK "table_header_bg" t.ui_elements
  let tableBorder ← getK "table_border" t.ui_elements
  let hoverRow ← getK "hover_row" t.ui_elements
  let popupBg ← getK "popup_bg" t.ui_elements
  let popupBorder ← getK "popup_border" t.ui_elements
  some
    [structRule linkGrp linkDefault,
     structRule sidebarGrp sidebarHover,
     structRule stripesGrp tableHeaderBg,
     structRule tableHeaderGrp tableHeaderBg,
     structRule tableSmallHeaderGrp tableHeaderBg,
     structRule tableSpacerGrp tableHeaderBg,
     structRule contentTdGrp tableBorder,
     structRule hoverOddGrp hoverRow,
     structRule hoverEvenGrp hoverRow,
     structRule popupBgGrp popupBg,
     structRule popupBorderGrp popupBorder]

/-- The `(btn_class, color_key)` pairs of the button loop (lines 169–175). -/
def btnPairs : List (String × String) :=
  [("btn-blue", "btn_blue"), ("btn-start", "btn_start"), ("btn-preset", "btn_preset"),
   ("btn-yellow", "btn_yellow"), ("btn-red", "btn_red")]

/-- One iteration of the button loop (lines 175–183): the base rule from
`buttons[color_key]` and the hover rule from `buttons[color_key + "_hover"]`. -/
def btnRulesFor (buttons : List (String × String)) (btnClass colorKey : String) :
    Option (List Rule) := do
  let base ← getK colorKey buttons
  let hover ← getK (colorKey ++ "_hover") buttons
  some [structRule (btnBaseGrp btnClass) base, structRule (btnHoverGrp btnClass) hover]

/-- The `replacements` list built by `apply_theme` (lines 126–183), in source
order: one rule per `backgrounds` entry, one per `text` entry, the eleven
structural rules, then base+hover rules for the five buttons.  `none` models
a `KeyError` from any of the dict subscriptions. -/
def buildReplacements (t : Theme) : Option (List Rule) := do
  let varRules :=
    t.backgrounds.map (fun p => varRule p.1 p.2) ++ t.text.map (fun p => varRule p.1 p.2)
  let structs ← structuralRules t
  let btns ← (btnPairs.mapM (fun p => btnRulesFor t.buttons p.1 p.2)).map List.flatten
  some (varRules ++ structs ++ btns)

/-- The pure core of `apply_theme` (lines 115–188): build the replacement
list from the theme, then fold `re.sub` over it (lines 186–188).  `none`
models the `KeyError` escaping `apply_theme` when a referenced key is
missing; in that case nothing is written back. -/
def applyContent (t : Theme) (css : List Char) : Option (List Char) :=
  (buildReplacements t).map (fun rules => rules.foldl (fun acc r => reSub r acc) css)

/-! ### Filesystem-level operations -/

/-- The fixed list of CSS files handled by backup/restore (lines 90 and 254). -/
def css_files : List String := ["style.css", "form.css", "paging.css", "base.css"]

/-- Directory contents as an association list (filename, bytes); a file is
present iff its name has an entry. -/
def getF (k : String) (l : List (String × List Char)) : Option (List Char) :=
  (l.find? (fun p => p.1 = k)).map (·.2)

/-- Write (create or overwrite) file `k` with content `v`. -/
def setF (k : String) (v : List Char) : List (String × List Char) → List (String × List Char)
  | [] => [(k, v)]
  | p :: rest => if p.1 = k then (k, v) :: rest else p :: setF k v rest

/-- A backup directory: its name (`backup_<timestamp>`), its modification
time, and the CSS files copied into it. -/
structure Backup where
  name : String
  mtime : Nat
  files : List (String × List Char)
  deriving DecidableEq

/-- The filesystem state the script manipulates: the static directory's CSS
files, the backup directories (in creation order — the tool is the only
writer of the backups directory), and the optional `OpenBench/config.py`. -/
structure FS where
  static : List (String × List Char)
  backups : List Backup
  config : Option (List Char)
  deriving DecidableEq

/-- `backup_current` (lines 84–100): create (or, for a colliding timestamp,
reuse — `os.makedirs(..., exist_ok=True)`) the directory `backup_<ts>` and
copy every currently present CSS file into it.  Returns the new state and the
backup directory name. -/
def backup_current (ts : String) (mt : Nat) (fs : FS) : FS × String :=
  let bname := "backup_" ++ ts
  let snap := css_files.filterMap (fun f => (getF f fs.static).map (fun v => (f, v)))
  if fs.backups.any (fun b => b.name = bname) then
    ({ fs with backups := fs.backups.map (fun b =>
        if b.name = bname then
          { b with mtime := mt, files := snap.foldl (fun acc p => setF p.1 p.2 acc) b.files }
        else b) },
     bname)
  else
    ({ fs with backups := fs.backups ++ [{ name := bname, mtime := mt, files := snap }] },
     bname)

/-! ### Version bumper (`_update_static_version`, lines 199–234) -/

/-- The search pattern `OPENBENCH_STATIC_VERSION = '([^']+)'` (line 211). -/
def versionPat : Pattern :=
  { pre := [litE "OPENBENCH_STATIC_VERSION = \x27"],
    grp := [.cls (fun c => !(c = squote)) .plus],
    post := [.lit [squote]] }

/-- The anchored pattern `v(\d+)` used with `re.match` (line 216). -/
def vNumPat : Pattern :=
  { pre := [litE "v"], grp := [.cls isDig .plus], post := [] }

/-- The substitution rule of lines 225–229: pattern
`OPENBENCH_STATIC_VERSION = '[^']+'`, plain replacement with the new
version. -/
def versionSubRule (newVersion : List Char) : Rule :=
  { pat := { pre := [litE "OPENBENCH_STATIC_VERSION = \x27",
                     .cls (fun c => !(c = squote)) .plus,
                     .lit [squote]],
             grp := [], post := [] },
    keepGroup := false,
    tail := "OPENBENCH_STATIC_VERSION = \x27".data ++ newVersion ++ [squote] }

/-- What `_update_static_version` reported. -/
inductive VNote where
  /-- config rewritten, carrying the old and new version tokens -/
  | updated : List Char → List Char → VNote
  /-- `config.py not found, skipping version update` -/
  | noConfig : VNote
  /-- `Could not find OPENBENCH_STATIC_VERSION in config.py` -/
  | noToken : VNote
  deriving DecidableEq

/-- `_update_static_version` (lines 199–234): missing config file and missing
version token are informational notices that leave everything unchanged;
otherwise the leading numeric base of the current token (default `6`) is kept
and the suffix is replaced by the theme name. -/
def update_static_version (config : Option (List Char)) (themeName : List Char) :
    Option (List Char) × VNote :=
  match config with
  | none => (none, .noConfig)
  | some content =>
    match reSearch versionPat content with
    | some oldVersion =>
      let base :=
        match matchPat vNumPat oldVersion with
        | some r => (oldVersion.drop r.1).take r.2.1
        | none => ['6']
      let newVersion := 'v' :: (base ++ '-' :: themeName)
      (some (reSub (versionSubRule newVersion) content), .updated oldVersion newVersion)
    | none => (some content, .noToken)

/-! ### Theme-name derivation and the filesystem-level apply -/

/-- `os.path.basename` for the POSIX paths the script handles. -/
def pyBasename (s : List Char) : List Char :=
  (s.reverse.takeWhile (fun c => !(c = '/'))).reverse

/-- Worker for `pyReplace`, fuel-based structural recursion (every step
consumes at least one character of the subject). -/
def pyReplaceAux (n : Char) (ns repl : List Char) : Nat → List Char → List Char
  | 0, s => s
  | fuel + 1, s =>
    match s with
    | [] => []
    | c :: cs =>
      if (n :: ns).isPrefixOf (c :: cs) then
        repl ++ pyReplaceAux n ns repl fuel (cs.drop ns.length)
      else
        c :: pyReplaceAux n ns repl fuel cs

/-- Python `str.replace`: replace every non-overlapping occurrence, left to
right.  (The script only calls it with the nonempty needles `theme_` and
`.json`, so the empty-needle behavior is irrelevant and modelled as the
identity.) -/
def pyReplace (s needle repl : List Char) : List Char :=
  match needle with
  | [] => s
  | n :: ns => pyReplaceAux n ns repl s.length s

/-- Line 119: `os.path.basename(theme_file).replace('theme_', '').replace('.json', '')`. -/
def themeNameOf (themeFile : List Char) : List Char :=
  pyReplace (pyReplace (pyBasename themeFile) "theme_".data []) ".json".data []

/-- `apply_theme` at the filesystem level (lines 102–197), with the theme
JSON already loaded: read `style.css` (`none` if absent — the `open` would
raise), rewrite it through the replacement list (`none` on a missing theme
key — the `KeyError` would raise before the write at line 191), write it
back, then bump the static version. -/
def apply_theme_fs (t : Theme) (themeFile : String) (fs : FS) : Option FS := do
  let css ← getF "style.css" fs.static
  let modified ← applyContent t css
  let config2 := (update_static_version fs.config (themeNameOf themeFile.data)).1
  some { fs with static := setF "style.css" modified fs.static, config := config2 }

/-! ### Restore (`restore_backup`, lines 236–263) -/

/-- Stable insertion into a list sorted by `mtime`: an element goes before
the first strictly larger key, after equal ones' predecessors — together with
`sortByMtime` this models Python's stable `sorted(..., key=os.path.getmtime)`. -/
def insertByMtime (b : Backup) : List Backup → List Backup
  | [] => [b]
  | x :: xs => if b.mtime ≤ x.mtime then b :: x :: xs else x :: insertByMtime b xs

/-- Stable sort of the backup directories by modification time (line 240). -/
def sortByMtime : List Backup → List Backup
  | [] => []
  | x :: xs => insertByMtime x (sortByMtime xs)

/-- The copy loop of lines 254–260: for each CSS file present in the backup
directory `bf`, copy it over the static file; absent files are skipped. -/
def copyBack (files : List String) (bf st : List (String × List Char)) :
    List (String × List Char) :=
  files.foldl (fun acc f =>
    match getF f bf with
    | some v => setF f v acc
    | none => acc) st

/-- Target resolution of lines 238–250: `latest` means the last entry of the
stable mtime sort; any other name is looked up as a directory name; `none`
models the not-found path (empty backup list or nonexistent directory). -/
def resolveBackup (name : String) (backups : List Backup) : Option Backup :=
  if name = "latest" then
    (sortByMtime backups).getLast?
  else
    backups.find? (fun b => b.name = name)

/-- `restore_backup` (lines 236–263): resolve the target; a missing target is
reported and nothing happens (second component `none`).  Otherwise each CSS
file present in the backup is copied over the static file (absent ones
silently skipped) and the version token is bumped with suffix `restored`. -/
def restore_backup (name : String) (fs : FS) : FS × Option String :=
  match resolveBackup name fs.backups with
  | none => (fs, none)
  | some b =>
    let static2 := copyBack css_files b.files fs.static
    let config2 := (update_static_version fs.config "restored".data).1
    ({ fs with static := static2, config := config2 }, some b.name)

/-! ### Root location (`_find_openbench_root`, lines 33–65) and `main` -/

/-- The filesystem paths that exist, for the path-probing logic. -/
structure World where
  paths : List String

/-- `os.path.exists`. -/
def pathExists (w : World) (p : String) : Bool := w.paths.contains p

/-- `os.path.join` for the uses in the script (directory plus relative
component). -/
def pjoin (a b : String) : String := a ++ "/" ++ b

/-- `_is_openbench_root` (lines 58–65): all three markers must exist. -/
def is_openbench_root (w : World) (path : String) : Bool :=
  ["manage.py", "OpenBench/static/style.css", "Templates/OpenBench"].all
    (fun m => pathExists w (pjoin path m))

/-- The fixed candidate list of lines 39–45 (cwd, script directory, three
well-known locations). -/
def candidatePaths (cwd scriptDir : String) : List String :=
  [cwd, scriptDir, "/home/brandon/OpenBench", "/opt/OpenBench", "/var/www/OpenBench"]

/-- `_find_openbench_root` (lines 33–56): an explicitly provided path is
accepted if nonempty (Python truthiness) and existing — without marker
validation; otherwise the first candidate containing all three markers wins;
with no match a `ValueError` is raised. -/
def find_openbench_root (w : World) (cwd scriptDir : String) (provided : Option String) :
    Except String String :=
  let tryCandidates : Except String String :=
    match (candidatePaths cwd scriptDir).find? (fun p => is_openbench_root w p) with
    | some p => .ok p
    | none =>
      .error "Could not find OpenBench root directory. Please provide it using --path argument."
  match provided with
  | some p => if p ≠ "" && pathExists w p then .ok p else tryCandidates
  | none => tryCandidates

/-- The directory paths held by a constructed `ThemeManager`. -/
structure Manager where
  openbench_root : String
  static_dir : String
  themes_dir : String
  backup_dir : String

/-- `os.makedirs(..., exist_ok=True)`. -/
def mkdirP (w : World) (p : String) : World :=
  { paths := if w.paths.contains p then w.paths else w.paths ++ [p] }

/-- `ThemeManager.__init__` (lines 18–31): the root is resolved first (line
20), so a root-not-found error propagates before the `os.makedirs` calls of
lines 26–27 touch the filesystem; on success the two directories are
created. -/
def themeManagerInit (w : World) (cwd scriptDir : String) (provided : Option String) :
    Except String (Manager × World) :=
  match find_openbench_root w cwd scriptDir provided with
  | .error e => .error e
  | .ok root =>
    let m : Manager :=
      { openbench_root := root,
        static_dir := pjoin root "OpenBench/static",
        themes_dir := pjoin root "themes",
        backup_dir := pjoin root "theme_backups" }
    .ok (m, mkdirP (mkdirP w m.themes_dir) m.backup_dir)

/-- Outcome of a `main` invocation: process exit code, the `Error: `-prefixed
message if any, and the world state. -/
structure MainResult where
  exitCode : Nat
  errOutput : Option String
  world : World

/-- The entry point's construction phase and top-level error handling (lines
293–294 and 319–321): `ThemeManager(args.path)` is the first statement of the
guarded block, and any exception is caught once, printed with an `Error: `
prefix, and turned into `sys.exit(1)`.  The selected action's behavior after
a successful construction is modelled by the dedicated functions above
(`backup_current`, `apply_theme_fs`, `restore_backup`); this function only
resolves the construction, which is all the root-not-found claim concerns. -/
def mainInit (w : World) (cwd scriptDir : String) (pathArg : Option String) : MainResult :=
  match themeManagerInit w cwd scriptDir pathArg with
  | .error e => { exitCode := 1, errOutput := some ("Error: " ++ e), world := w }
  | .ok (_, w2) => { exitCode := 0, errOutput := none, world := w2 }

/-- Theme file resolution at the top of `apply_theme` (lines 104–111): prefer
`<themes_dir>/<theme_file>`; if that does not exist fall back to the name as
a path on its own; only when neither exists raise `FileNotFoundError`. -/
def resolveThemePath (w : World) (themesDir themeFile : String) : Except String String :=
  let themePath := pjoin themesDir themeFile
  if pathExists w themePath then .ok themePath
  else if pathExists w themeFile then .ok themeFile
  else .error ("Theme file not found: " ++ themeFile)

/-- One color slot per color value targeted in the nine-block stylesheet: two
CSS custom properties and the nine structural selector blocks (the popup
block carries two slots, and there are four table-header-style slots and two
hover-row slots). -/
structure Palette where
  bgPrimary : String
  textPrimary : String
  link : String
  sidebar : String
  th1 : String
  th2 : String
  th3 : String
  th4 : String
  tdBorder : String
  hovOdd : String
  hovEven : String
  popupBg : String
  popupBorder : String

/-- Modelled from the spec: the repository ships no `OpenBench/static/style.css`
under `src/`, so this is the stylesheet shape the spec describes (§4.4, §6,
§8): a sheet containing CSS custom properties and all nine structural
selector blocks targeted by the hand-written patterns (anchor pseudo-class
group, sidebar hover, the four table-header-style selectors, the content
border-bottom, the two hover-row selectors, the popup with background and
border).  It is written as a function of the color values so that "all other
text is unchanged" is manifest: two instantiations differ exactly at the
color slots.  The button blocks live in `cssBtnDemo` below, where the ten
button rules are exercised; on this sheet they are (silent) no-ops, exactly
as the engine treats an absent selector. -/
def cssTemplate (p : Palette) : List Char :=
  (":root \x7b\n  --bg-primary: " ++ p.bgPrimary ++ ";\n  --text-primary: "
    ++ p.textPrimary ++ ";\n\x7d\n"
    ++ "a:link, a:visited, a:hover, a:active \x7b color: " ++ p.link ++ "; \x7d\n"
    ++ "#sidebar li:hover \x7b background-color: " ++ p.sidebar ++ "; \x7d\n"
    ++ ".stripes th \x7b background-color: " ++ p.th1 ++ "; \x7d\n"
    ++ ".table-header th \x7b background-color: " ++ p.th2 ++ "; \x7d\n"
    ++ ".table-small-header th \x7b background-color: " ++ p.th3 ++ "; \x7d\n"
    ++ ".table-spacer-small th \x7b background-color: " ++ p.th4 ++ "; \x7d\n"
    ++ "#content td \x7b border-bottom: 1px solid " ++ p.tdBorder ++ "; \x7d\n"
    ++ ".hoverable tr:nth-child(odd):hover \x7b background-color: " ++ p.hovOdd ++ "; \x7d\n"
    ++ ".hoverable tr:nth-child(even):hover \x7b background-color: " ++ p.hovEven ++ "; \x7d\n"
    ++ ".engine-options-popup \x7b background-color: " ++ p.popupBg
    ++ "; border: 1px solid " ++ p.popupBorder ++ "; \x7d\n").data

/-- The colors of the pristine stylesheet (arbitrary distinct 6-hex values). -/
def origPalette : Palette where
  bgPrimary := "#101010"
  textPrimary := "#202020"
  link := "#303030"
  sidebar := "#404040"
  th1 := "#505050"
  th2 := "#515151"
  th3 := "#525252"
  th4 := "#535353"
  tdBorder := "#606060"
  hovOdd := "#707070"
  hovEven := "#717171"
  popupBg := "#808080"
  popupBorder := "#818181"

/-- Modelled from the spec: theme JSON files are not under `src/`, so this is
a valid theme descriptor in the format of §6 with every key referenced by a
substitution rule present and all values 6-hex-digit colors. -/
def canonicalTheme : Theme where
  backgrounds := [("bg-primary", "#111a2b")]
  text := [("text-primary", "#e0e0e0")]
  ui_elements :=
    [("sidebar_hover", "#223344"), ("table_header_bg", "#334455"),
     ("table_border", "#445566"), ("hover_row", "#556677"),
     ("popup_bg", "#667788"), ("popup_border", "#778899")]
  links := [("default", "#66aaff")]
  buttons :=
    [("btn_blue", "#0a1a2a"), ("btn_blue_hover", "#0b1b2b"),
     ("btn_start", "#0c1c2c"), ("btn_start_hover", "#0d1d2d"),
     ("btn_preset", "#0e1e2e"), ("btn_preset_hover", "#0f1f2f"),
     ("btn_yellow", "#1b2b3b"), ("btn_yellow_hover", "#2c3c4c"),
     ("btn_red", "#3d4d5d"), ("btn_red_hover", "#4e5e6e")]

/-! ### Concrete artifacts for the claims -/

/-- Modelled from the spec: `OpenBench/config.py` is not under `src/`; per
§3/§6 it is a source text file assigning a single-quoted version token of the
shape `v<number>[-<suffix>]` to `OPENBENCH_STATIC_VERSION`. -/
def cfgV0 : List Char := "OPENBENCH_STATIC_VERSION = \x27v6\x27\n".data

/-- `cfgV0` after applying `theme_navy_blue.json`. -/
def cfgNavy : List Char := "OPENBENCH_STATIC_VERSION = \x27v6-navy_blue\x27\n".data

/-- `cfgNavy` after applying `theme_dark.json` on top. -/
def cfgDark : List Char := "OPENBENCH_STATIC_VERSION = \x27v6-dark\x27\n".data

/-- A config whose existing token has no leading `v<number>`. -/
def cfgBeta : List Char := "OPENBENCH_STATIC_VERSION = \x27beta\x27\n".data

/-- A minimal stylesheet (one CSS custom property block) for the
filesystem-level claims, where the interesting content is elsewhere. -/
def smallCss : List Char := ":root \x7b --bg-primary: #101010; \x7d\n".data

/-- A filesystem with a pristine `style.css` and the canonical config. -/
def fsV : FS := { static := [("style.css", smallCss)], backups := [], config := some cfgV0 }

/-- `canonicalTheme` with the `sidebar_hover` key removed from
`ui_elements` — a descriptor in which a key referenced by a substitution rule
is absent. -/
def themeNoSidebar : Theme :=
  { canonicalTheme with
    ui_elements :=
      [("table_header_bg", "#334455"), ("table_border", "#445566"),
       ("hover_row", "#556677"), ("popup_bg", "#667788"), ("popup_border", "#778899")] }

/-- A filesystem for the round-trip claim: one stylesheet, no backups yet. -/
def fs3w : FS := { static := [("style.css", smallCss)], backups := [], config := none }

/-- `fs3w` after one backup and one apply. -/
def fs3wApplied : FS :=
  (apply_theme_fs canonicalTheme "theme_navy_blue.json"
    (backup_current "20250101_120000" 5 fs3w).1).getD fs3w

/-- A filesystem for the restore-latest claim. -/
def fs6w : FS := { static := [("style.css", smallCss)], backups := [], config := none }

/-- Two sequential backup timestamps with increasing mtimes. -/
def bs6w : List (String × Nat) := [("a", 1), ("b", 2)]

/-- `fs6w` after the two backups. -/
def fs6wN : FS := bs6w.foldl (fun s p => (backup_current p.1 p.2 s).1) fs6w

/-- `canonicalTheme` with an 8-hex-digit background color (`#RRGGBBAA` is a
legal CSS hex color, and the spec's data model only asks for hex color
strings). -/
def theme8hex : Theme := { canonicalTheme with backgrounds := [("bg-primary", "#11223344")] }

/-- A filesystem with the minimal stylesheet and no config. -/
def fs7 : FS := { static := [("style.css", smallCss)], backups := [], config := none }

/-- `smallCss` after one apply of `theme8hex`. -/
def css7a : List Char := ":root \x7b --bg-primary: #11223344; \x7d\n".data

/-- `css7a` after a second apply of `theme8hex`: the pattern re-matches the
first six hex digits of the substituted color and duplicates the tail. -/
def css7b : List Char := ":root \x7b --bg-primary: #1122334444; \x7d\n".data

/-- `fs7` after one apply of `theme8hex`. -/
def fs7a : FS := { static := [("style.css", css7a)], backups := [], config := none }

/-- `fs7a` after another apply of `theme8hex` — not equal to `fs7a`. -/
def fs7b : FS := { static := [("style.css", css7b)], backups := [], config := none }

/-- Modelled from the spec: a stylesheet with a custom-property block and the
`.btn-blue` base and hover blocks, exercising the variable rules and the
button rules (base and hover) of the substitution engine. -/
def cssBtnDemo : List Char :=
  (":root \x7b --bg-primary: #101010; \x7d\n"
    ++ ".btn-blue \x7b background-color: #901010; \x7d\n"
    ++ ".btn-blue:hover \x7b background-color: #901011; \x7d\n").data

/-- `cssBtnDemo` with `canonicalTheme`'s colors substituted — and a fixpoint
of a further apply. -/
def cssBtnDemoThemed : List Char :=
  (":root \x7b --bg-primary: #111a2b; \x7d\n"
    ++ ".btn-blue \x7b background-color: #0a1a2a; \x7d\n"
    ++ ".btn-blue:hover \x7b background-color: #0b1b2b; \x7d\n").data

/-- A spec-modelled stylesheet and config, for the idempotence claim. -/
def fs7v : FS :=
  { static := [("style.css", cssBtnDemo)], backups := [], config := some cfgV0 }

/-- `fs7v` after applying `theme_navy_blue.json` with `canonicalTheme` — and
also after applying it twice. -/
def fs7v1 : FS :=
  { static := [("style.css", cssBtnDemoThemed)], backups := [],
    config := some cfgNavy }

/-- A filesystem with one backup directory and the canonical config, for full
restore idempotence (version token included). -/
def fs7r : FS :=
  { static := [("style.css", smallCss)],
    backups := [{ name := "backup_a", mtime := 1, files := [("style.css", smallCss)] }],
    config := some cfgV0 }

/-- The `ValueError` message of lines 53–56. -/
def rootErrMsg : String :=
  "Could not find OpenBench root directory. Please provide it using --path argument."

/-- The sidebar-hover structural rule with `canonicalTheme`'s color, for the
silent-no-op claim. -/
def wSidebarRule : Rule := structRule sidebarGrp "#223344"

/-- A stylesheet lacking the `#sidebar li:hover` structural selector block
(it keeps two other blocks). -/
def cssNoSidebar : List Char :=
  ("a:link, a:visited, a:hover, a:active \x7b color: #303030; \x7d\n"
    ++ ".btn-blue \x7b background-color: #901010; \x7d\n").data

/-! ### Color-parametric abstract texts (for the quantified C1) -/

/-- An abstract character: either a concrete character or the `j`-th hex
digit of the `i`-th color parameter of an environment of color values. -/
inductive AC where
  | conc : Char → AC
  | pd : Nat → Nat → AC

/-- Concretize one abstract character under environment `v` (a color value is
`'#'` followed by six digits, so digit `j` sits at position `j + 1`). -/
def instAC (v : Nat → List Char) : AC → Char
  | .conc c => c
  | .pd i j => (v i).getD (j + 1) '0'

/-- Concretize an abstract text. -/
def inst (v : Nat → List Char) (s : List AC) : List Char := s.map (instAC v)

/-- A valid environment: every color value is `'#'` followed by exactly six
hex digits (§3: hex color strings, in the 6-digit shape the patterns match). -/
def GoodEnv (v : Nat → List Char) : Prop :=
  ∀ i, ∃ ds, v i = '#' :: ds ∧ ds.length = 6 ∧ ds.all isHexDig = true

/-- The abstract text of the `i`-th color parameter: `'#'` then its six
digits. -/
def hole (i : Nat) : List AC :=
  [.conc '#', .pd i 0, .pd i 1, .pd i 2, .pd i 3, .pd i 4, .pd i 5]

/-- Abstract text of a concrete string. -/
def cA (s : String) : List AC := s.data.map .conc

/-- Evaluate a character-class predicate on an abstract character: a
parameter digit is always a hex digit, and every class the script's regexes
use is constant on hex digits, so sampling at `'a'` is exact there. -/
def aChar (p : Char → Bool) : AC → Bool
  | .conc c => p c
  | .pd _ _ => p 'a'

/-- Three-valued prefix test of a concrete literal against an abstract text:
`some b` means the test evaluates to `b` under every valid environment,
`none` that the analysis is inconclusive. -/
def aIsPrefixOf : List Char → List AC → Option Bool
  | [], _ => some true
  | _ :: _, [] => some false
  | c :: cs, .conc d :: as => if c = d then aIsPrefixOf cs as else some false
  | c :: cs, .pd _ _ :: as =>
    if isHexDig c then
      match aIsPrefixOf cs as with
      | some false => some false
      | _ => none
    else some false

/-- Abstract `firstSome`: `some (some ns)` and `some none` are definite
results (the same under every valid environment), `none` is inconclusive. -/
def aFirstSome : List Nat → (Nat → Option (Option (List Nat))) → Option (Option (List Nat))
  | [], _ => some none
  | i :: is, f =>
    match f i with
    | some (some ns) => some (some (i :: ns))
    | some none => aFirstSome is f
    | none => none

/-- Abstract `matchElems`: `some` is a definite result (match data or
failure, identical under every valid environment), `none` inconclusive. -/
def aMatchElems : (elems : List RElem) → (s : List AC) → Option (Option (List Nat))
  | [], _ => some (some [])
  | .lit l :: rest, s =>
    match aIsPrefixOf l s with
    | some true =>
      match aMatchElems rest (s.drop l.length) with
      | some r => some (r.map (fun ns => l.length :: ns))
      | none => none
    | some false => some none
    | none => none
  | .cls p q :: rest, s =>
    let m := (s.takeWhile (aChar p)).length
    let cands : List Nat :=
      match q with
      | .star => (List.range (m + 1)).reverse
      | .lazy => List.range (m + 1)
      | .plus => ((List.range (m + 1)).reverse).filter (fun i => decide (1 ≤ i))
      | .rep n => if n ≤ m then [n] else []
    aFirstSome cands (fun i => aMatchElems rest (s.drop i))
  termination_by structural elems _ => elems

/-- Abstract `matchPat`. -/
def aMatchPat (p : Pattern) (s : List AC) : Option (Option (Nat × Nat × Nat)) :=
  match aMatchElems (p.pre ++ p.grp ++ p.post) s with
  | some (some ns) =>
    some (some ((ns.take p.pre.length).sum,
      ((ns.drop p.pre.length).take p.grp.length).sum, ns.sum))
  | some none => some none
  | none => none

/-- A substitution rule with an abstract replacement text (same pattern and
group flag as the concrete rule it abstracts). -/
structure ARule where
  pat : Pattern
  keepGroup : Bool
  atail : List AC

/-- The concrete rule an abstract rule denotes under environment `v`. -/
def instARule (v : Nat → List Char) (ar : ARule) : Rule :=
  { pat := ar.pat, keepGroup := ar.keepGroup, tail := inst v ar.atail }

/-- The character classes of a regex-element list are constant on hex digits
(true of every class the script's regexes use: `\s`, `[^}]`, `[^;]`,
`[0-9A-Fa-f]`), so sampling them at `'a'` is exact on parameter digits. -/
def ElemsOK (l : List RElem) : Prop :=
  ∀ p q, RElem.cls p q ∈ l → ∀ c, isHexDig c = true → p c = p 'a'

/-- Abstract `reSubAux`; `none` when the analysis is inconclusive at some
position. -/
def aReSubAux (ar : ARule) : Nat → List AC → Option (List AC)
  | 0, s => some s
  | fuel + 1, s =>
    match s with
    | [] => some []
    | a :: as =>
      match aMatchPat ar.pat (a :: as) with
      | some (some (preL, grpL, tot)) =>
        if tot = 0 then
          (aReSubAux ar fuel as).map (fun res => a :: res)
        else
          (aReSubAux ar fuel ((a :: as).drop tot)).map (fun res =>
            (if ar.keepGroup then ((a :: as).drop preL).take grpL else [])
              ++ ar.atail ++ res)
      | some none => (aReSubAux ar fuel as).map (fun res => a :: res)
      | none => none

/-- Abstract `reSub`. -/
def aReSub (ar : ARule) (s : List AC) : Option (List AC) :=
  aReSubAux ar s.length s

/-- Abstract left fold of `reSub` over a rule list. -/
def aApplyRules : List ARule → List AC → Option (List AC)
  | [], s => some s
  | ar :: ars, s =>
    match aReSub ar s with
    | some s1 => aApplyRules ars s1
    | none => none

/-- Abstract CSS-variable rule: the pattern of `varRule` (which never
depends on the color) with the abstract replacement `--<var>: ` plus color
parameter `i`. -/
def aVarRule (varName : String) (i : Nat) : ARule :=
  { pat := (varRule varName "").pat, keepGroup := false,
    atail := cA ("--" ++ varName ++ ": ") ++ hole i }

/-- Abstract structural rule: the pattern of `structRule` with the abstract
replacement `\1` plus color parameter `i`. -/
def aStructRule (grpElems : List RElem) (i : Nat) : ARule :=
  { pat := (structRule grpElems "").pat, keepGroup := true, atail := hole i }

/-- The nineteen color values of a full theme descriptor (one per key a
substitution rule references), as strings. -/
structure ThemeColors where
  bg : String
  tx : String
  link : String
  sidebar : String
  tableHeader : String
  tableBorder : String
  hoverRow : String
  popupBg : String
  popupBorder : String
  btnBlue : String
  btnBlueHov : String
  btnStart : String
  btnStartHov : String
  btnPreset : String
  btnPresetHov : String
  btnYellow : String
  btnYellowHov : String
  btnRed : String
  btnRedHov : String

/-- The theme descriptor (§6 format) with the given color values: the two
custom properties the stylesheet declares plus every key subscripted by the
structural and button rules. -/
def mkTheme (c : ThemeColors) : Theme where
  backgrounds := [("bg-primary", c.bg)]
  text := [("text-primary", c.tx)]
  ui_elements :=
    [("sidebar_hover", c.sidebar), ("table_header_bg", c.tableHeader),
     ("table_border", c.tableBorder), ("hover_row", c.hoverRow),
     ("popup_bg", c.popupBg), ("popup_border", c.popupBorder)]
  links := [("default", c.link)]
  buttons :=
    [("btn_blue", c.btnBlue), ("btn_blue_hover", c.btnBlueHov),
     ("btn_start", c.btnStart), ("btn_start_hover", c.btnStartHov),
     ("btn_preset", c.btnPreset), ("btn_preset_hover", c.btnPresetHov),
     ("btn_yellow", c.btnYellow), ("btn_yellow_hover", c.btnYellowHov),
     ("btn_red", c.btnRed), ("btn_red_hover", c.btnRedHov)]

/-- One color slot per targeted color value of the full stylesheet: the two
custom properties, the nine structural selector blocks (four
table-header-style slots, two hover-row slots, two popup slots), and the five
button blocks, base and hover each. -/
structure PaletteB where
  bgPrimary : String
  textPrimary : String
  link : String
  sidebar : String
  th1 : String
  th2 : String
  th3 : String
  th4 : String
  tdBorder : String
  hovOdd : String
  hovEven : String
  popupBg : String
  popupBorder : String
  btnBlue : String
  btnBlueHov : String
  btnStart : String
  btnStartHov : String
  btnPreset : String
  btnPresetHov : String
  btnYellow : String
  btnYellowHov : String
  btnRed : String
  btnRedHov : String

/-- Modelled from the spec: the full stylesheet shape of §4.4/§6/§8 — the
custom-property block, all nine structural selector blocks, and the five
button blocks (base and hover) — as a function of its color values, so that
"all other text is unchanged" is manifest: two instantiations differ exactly
at the color slots. -/
def cssTemplateB (p : PaletteB) : List Char :=
  (":root \x7b\n  --bg-primary: " ++ p.bgPrimary ++ ";\n  --text-primary: "
    ++ p.textPrimary ++ ";\n\x7d\n"
    ++ "a:link, a:visited, a:hover, a:active \x7b color: " ++ p.link ++ "; \x7d\n"
    ++ "#sidebar li:hover \x7b background-color: " ++ p.sidebar ++ "; \x7d\n"
    ++ ".stripes th \x7b background-color: " ++ p.th1 ++ "; \x7d\n"
    ++ ".table-header th \x7b background-color: " ++ p.th2 ++ "; \x7d\n"
    ++ ".table-small-header th \x7b background-color: " ++ p.th3 ++ "; \x7d\n"
    ++ ".table-spacer-small th \x7b background-color: " ++ p.th4 ++ "; \x7d\n"
    ++ "#content td \x7b border-bottom: 1px solid " ++ p.tdBorder ++ "; \x7d\n"
    ++ ".hoverable tr:nth-child(odd):hover \x7b background-color: " ++ p.hovOdd ++ "; \x7d\n"
    ++ ".hoverable tr:nth-child(even):hover \x7b background-color: " ++ p.hovEven ++ "; \x7d\n"
    ++ ".engine-options-popup \x7b background-color: " ++ p.popupBg
    ++ "; border: 1px solid " ++ p.popupBorder ++ "; \x7d\n"
    ++ ".btn-blue \x7b background-color: " ++ p.btnBlue ++ "; \x7d\n"
    ++ ".btn-blue:hover \x7b background-color: " ++ p.btnBlueHov ++ "; \x7d\n"
    ++ ".btn-start \x7b background-color: " ++ p.btnStart ++ "; \x7d\n"
    ++ ".btn-start:hover \x7b background-color: " ++ p.btnStartHov ++ "; \x7d\n"
    ++ ".btn-preset \x7b background-color: " ++ p.btnPreset ++ "; \x7d\n"
    ++ ".btn-preset:hover \x7b background-color: " ++ p.btnPresetHov ++ "; \x7d\n"
    ++ ".btn-yellow \x7b background-color: " ++ p.btnYellow ++ "; \x7d\n"
    ++ ".btn-yellow:hover \x7b background-color: " ++ p.btnYellowHov ++ "; \x7d\n"
    ++ ".btn-red \x7b background-color: " ++ p.btnRed ++ "; \x7d\n"
    ++ ".btn-red:hover \x7b background-color: " ++ p.btnRedHov ++ "; \x7d\n").data

/-- The environment of the forty-two quantified color values: the nineteen
theme colors (indices 0–18 in `ThemeColors` field order), then the
twenty-three original stylesheet colors (indices 19–41 in `PaletteB` field
order). -/
def envCQ (c : ThemeColors) (q : PaletteB) : Nat → List Char := fun i =>
  ([c.bg, c.tx, c.link, c.sidebar, c.tableHeader, c.tableBorder, c.hoverRow,
    c.popupBg, c.popupBorder, c.btnBlue, c.btnBlueHov, c.btnStart,
    c.btnStartHov, c.btnPreset, c.btnPresetHov, c.btnYellow, c.btnYellowHov,
    c.btnRed, c.btnRedHov,
    q.bgPrimary, q.textPrimary, q.link, q.sidebar, q.th1, q.th2, q.th3, q.th4,
    q.tdBorder, q.hovOdd, q.hovEven, q.popupBg, q.popupBorder, q.btnBlue,
    q.btnBlueHov, q.btnStart, q.btnStartHov, q.btnPreset, q.btnPresetHov,
    q.btnYellow, q.btnYellowHov, q.btnRed, q.btnRedHov].getD i "#000000").data

/-- The abstract replacement list of `mkTheme c` under `envCQ`: rules in
source order, each color value as its environment parameter. -/
def aRules : List ARule :=
  [aVarRule "bg-primary" 0, aVarRule "text-primary" 1,
   aStructRule linkGrp 2, aStructRule sidebarGrp 3,
   aStructRule stripesGrp 4, aStructRule tableHeaderGrp 4,
   aStructRule tableSmallHeaderGrp 4, aStructRule tableSpacerGrp 4,
   aStructRule contentTdGrp 5, aStructRule hoverOddGrp 6,
   aStructRule hoverEvenGrp 6, aStructRule popupBgGrp 7,
   aStructRule popupBorderGrp 8,
   aStructRule (btnBaseGrp "btn-blue") 9, aStructRule (btnHoverGrp "btn-blue") 10,
   aStructRule (btnBaseGrp "btn-start") 11, aStructRule (btnHoverGrp "btn-start") 12,
   aStructRule (btnBaseGrp "btn-preset") 13, aStructRule (btnHoverGrp "btn-preset") 14,
   aStructRule (btnBaseGrp "btn-yellow") 15, aStructRule (btnHoverGrp "btn-yellow") 16,
   aStructRule (btnBaseGrp "btn-red") 17, aStructRule (btnHoverGrp "btn-red") 18]

/-- The stylesheet template as an abstract text, one environment index per
color slot (document order). -/
def aTpl (s1 s2 s3 s4 s5 s6 s7 s8 s9 s10 s11 s12 s13 s14 s15 s16 s17 s18 s19 s20 s21 s22 s23 : Nat) : List AC :=
  cA ":root \x7b\n  --bg-primary: " ++ hole s1 ++ cA ";\n  --text-primary: "
    ++ hole s2 ++ cA ";\n\x7d\n"
    ++ cA "a:link, a:visited, a:hover, a:active \x7b color: " ++ hole s3 ++ cA "; \x7d\n"
    ++ cA "#sidebar li:hover \x7b background-color: " ++ hole s4 ++ cA "; \x7d\n"
    ++ cA ".stripes th \x7b background-color: " ++ hole s5 ++ cA "; \x7d\n"
    ++ cA ".table-header th \x7b background-color: " ++ hole s6 ++ cA "; \x7d\n"
    ++ cA ".table-small-header th \x7b background-color: " ++ hole s7 ++ cA "; \x7d\n"
    ++ cA ".table-spacer-small th \x7b background-color: " ++ hole s8 ++ cA "; \x7d\n"
    ++ cA "#content td \x7b border-bottom: 1px solid " ++ hole s9 ++ cA "; \x7d\n"
    ++ cA ".hoverable tr:nth-child(odd):hover \x7b background-color: " ++ hole s10 ++ cA "; \x7d\n"
    ++ cA ".hoverable tr:nth-child(even):hover \x7b background-color: " ++ hole s11 ++ cA "; \x7d\n"
    ++ cA ".engine-options-popup \x7b background-color: " ++ hole s12
    ++ cA "; border: 1px solid " ++ hole s13 ++ cA "; \x7d\n"
    ++ cA ".btn-blue \x7b background-color: " ++ hole s14 ++ cA "; \x7d\n"
    ++ cA ".btn-blue:hover \x7b background-color: " ++ hole s15 ++ cA "; \x7d\n"
    ++ cA ".btn-start \x7b background-color: " ++ hole s16 ++ cA "; \x7d\n"
    ++ cA ".btn-start:hover \x7b background-color: " ++ hole s17 ++ cA "; \x7d\n"
    ++ cA ".btn-preset \x7b background-color: " ++ hole s18 ++ cA "; \x7d\n"
    ++ cA ".btn-preset:hover \x7b background-color: " ++ hole s19 ++ cA "; \x7d\n"
    ++ cA ".btn-yellow \x7b background-color: " ++ hole s20 ++ cA "; \x7d\n"
    ++ cA ".btn-yellow:hover \x7b background-color: " ++ hole s21 ++ cA "; \x7d\n"
    ++ cA ".btn-red \x7b background-color: " ++ hole s22 ++ cA "; \x7d\n"
    ++ cA ".btn-red:hover \x7b background-color: " ++ hole s23 ++ cA "; \x7d\n"

/-- The abstract pristine stylesheet: every slot carries its original color,
parameters 19-41. -/
def aT0 : List AC := aTpl 19 20 21 22 23 24 25 26 27 28 29 30 31 32 33 34 35 36 37 38 39 40 41

/-- The abstract themed stylesheet: every targeted slot carries the
descriptor's corresponding parameter (0-18), all other text unchanged. -/
def aT1 : List AC := aTpl 0 1 2 3 4 4 4 4 5 6 6 7 8 9 10 11 12 13 14 15 16 17 18

/-- A color value in the shape every pattern of the script matches: `#`
followed by exactly six hex digits. -/
def isHexColorB (s : String) : Bool :=
  match s.data with
  | c :: ds => (c == '#') && (ds.length == 6) && ds.all isHexDig
  | [] => false

/-- Every color value of the descriptor is `#` plus six hex digits. -/
def themeColorsHex (c : ThemeColors) : Bool :=
  [c.bg, c.tx, c.link, c.sidebar, c.tableHeader, c.tableBorder, c.hoverRow,
   c.popupBg, c.popupBorder, c.btnBlue, c.btnBlueHov, c.btnStart,
   c.btnStartHov, c.btnPreset, c.btnPresetHov, c.btnYellow, c.btnYellowHov,
   c.btnRed, c.btnRedHov].all isHexColorB

/-- Every color value of the pristine stylesheet is `#` plus six hex digits. -/
def paletteHex (q : PaletteB) : Bool :=
  [q.bgPrimary, q.textPrimary, q.link, q.sidebar, q.th1, q.th2, q.th3, q.th4,
   q.tdBorder, q.hovOdd, q.hovEven, q.popupBg, q.popupBorder, q.btnBlue,
   q.btnBlueHov, q.btnStart, q.btnStartHov, q.btnPreset, q.btnPresetHov,
   q.btnYellow, q.btnYellowHov, q.btnRed, q.btnRedHov].all isHexColorB

/-- The palette a theme with colors `c` produces: the four
table-header-style slots share `tableHeader` and the two hover-row slots
share `hoverRow`, exactly as the source builds its replacement list. -/
def themedPaletteB (c : ThemeColors) : PaletteB where
  bgPrimary := c.bg
  textPrimary := c.tx
  link := c.link
  sidebar := c.sidebar
  th1 := c.tableHeader
  th2 := c.tableHeader
  th3 := c.tableHeader
  th4 := c.tableHeader
  tdBorder := c.tableBorder
  hovOdd := c.hoverRow
  hovEven := c.hoverRow
  popupBg := c.popupBg
  popupBorder := c.popupBorder
  btnBlue := c.btnBlue
  btnBlueHov := c.btnBlueHov
  btnStart := c.btnStart
  btnStartHov := c.btnStartHov
  btnPreset := c.btnPreset
  btnPresetHov := c.btnPresetHov
  btnYellow := c.btnYellow
  btnYellowHov := c.btnYellowHov
  btnRed := c.btnRed
  btnRedHov := c.btnRedHov

/-- The concrete color values of `canonicalTheme` as a `ThemeColors` record:
the witness instantiation of the quantified C1 claim. -/
def canonicalColors : ThemeColors where
  bg := "#111a2b"
  tx := "#e0e0e0"
  link := "#66aaff"
  sidebar := "#223344"
  tableHeader := "#334455"
  tableBorder := "#445566"
  hoverRow := "#556677"
  popupBg := "#667788"
  popupBorder := "#778899"
  btnBlue := "#0a1a2a"
  btnBlueHov := "#0b1b2b"
  btnStart := "#0c1c2c"
  btnStartHov := "#0d1d2d"
  btnPreset := "#0e1e2e"
  btnPresetHov := "#0f1f2f"
  btnYellow := "#1b2b3b"
  btnYellowHov := "#2c3c4c"
  btnRed := "#3d4d5d"
  btnRedHov := "#4e5e6e"

/-- The colors of a concrete pristine full stylesheet (arbitrary distinct
6-hex values): the witness instantiation of the quantified palette. -/
def origPaletteB : PaletteB where
  bgPrimary := "#101010"
  textPrimary := "#202020"
  link := "#303030"
  sidebar := "#404040"
  th1 := "#505050"
  th2 := "#515151"
  th3 := "#525252"
  th4 := "#535353"
  tdBorder := "#606060"
  hovOdd := "#707070"
  hovEven := "#717171"
  popupBg := "#808080"
  popupBorder := "#818181"
  btnBlue := "#901010"
  btnBlueHov := "#901011"
  btnStart := "#902020"
  btnStartHov := "#902021"
  btnPreset := "#903030"
  btnPresetHov := "#903031"
  btnYellow := "#904040"
  btnYellowHov := "#904041"
  btnRed := "#905050"
  btnRedHov := "#905051"

/-! ### Claim theorems -/

/-! ### Soundness of the abstract interpreter -/

theorem inst_cons (v : Nat → List Char) (a : AC) (s : List AC) :
    inst v (a :: s) = instAC v a :: inst v s := rfl

theorem inst_append (v : Nat → List Char) (s t : List AC) :
    inst v (s ++ t) = inst v s ++ inst v t := List.map_append _ _ _

theorem inst_length (v : Nat → List Char) (s : List AC) :
    (inst v s).length = s.length := List.length_map _ _

theorem inst_drop (v : Nat → List Char) (s : List AC) (n : Nat) :
    inst v (s.drop n) = (inst v s).drop n := List.map_drop _ _ _

theorem inst_take (v : Nat → List Char) (s : List AC) (n : Nat) :
    inst v (s.take n) = (inst v s).take n := List.map_take _ _ _

theorem inst_cA (v : Nat → List Char) (s : String) : inst v (cA s) = s.data := by
  simp only [inst, cA, List.map_map]
  have h : (instAC v ∘ AC.conc) = id := by funext c; rfl
  rw [h, List.map_id]

theorem instAC_pd_hex (v : Nat → List Char) (hv : GoodEnv v) (i j : Nat) :
    isHexDig (instAC v (.pd i j)) = true := by
  obtain ⟨ds, hds, hlen, hhex⟩ := hv i
  show isHexDig ((v i).getD (j + 1) '0') = true
  rw [hds]
  have hstep : ('#' :: ds).getD (j + 1) '0' = ds.getD j '0' := by
    simp [List.getD]
  rw [hstep]
  rcases Nat.lt_or_ge j ds.length with hj | hj
  · rw [List.getD_eq_getElem?_getD, List.getElem?_eq_getElem hj, Option.getD_some]
    exact List.all_eq_true.mp hhex _ (List.getElem_mem hj)
  · rw [List.getD_eq_getElem?_getD, List.getElem?_eq_none hj, Option.getD_none]
    decide

theorem inst_hole (v : Nat → List Char) (hv : GoodEnv v) (i : Nat) :
    inst v (hole i) = v i := by
  obtain ⟨ds, hds, hlen, _⟩ := hv i
  simp only [hole, inst, List.map, instAC]
  rw [hds]
  rcases ds with _ | ⟨d0, ds⟩; · simp at hlen
  rcases ds with _ | ⟨d1, ds⟩; · simp at hlen
  rcases ds with _ | ⟨d2, ds⟩; · simp at hlen
  rcases ds with _ | ⟨d3, ds⟩; · simp at hlen
  rcases ds with _ | ⟨d4, ds⟩; · simp at hlen
  rcases ds with _ | ⟨d5, ds⟩; · simp at hlen
  rcases ds with _ | ⟨d6, ds⟩
  · simp [List.getD]
  · simp at hlen

theorem isHexColorB_shape (s : String) (h : isHexColorB s = true) :
    ∃ ds, s.data = '#' :: ds ∧ ds.length = 6 ∧ ds.all isHexDig = true := by
  unfold isHexColorB at h
  rcases hd : s.data with _ | ⟨c, ds⟩
  · rw [hd] at h; exact absurd h (by decide)
  · rw [hd] at h
    simp only [Bool.and_eq_true, beq_iff_eq] at h
    obtain ⟨⟨hc, hlen⟩, hall⟩ := h
    exact ⟨ds, by rw [hc], hlen, hall⟩

theorem getD_hexColor (L : List String) (hL : L.all isHexColorB = true) (i : Nat) :
    isHexColorB (L.getD i "#000000") = true := by
  rcases Nat.lt_or_ge i L.length with hi | hi
  · rw [List.getD_eq_getElem?_getD, List.getElem?_eq_getElem hi, Option.getD_some]
    exact List.all_eq_true.mp hL _ (List.getElem_mem hi)
  · rw [List.getD_eq_getElem?_getD, List.getElem?_eq_none hi, Option.getD_none]
    decide

theorem goodEnv_envCQ (c : ThemeColors) (q : PaletteB)
    (hc : themeColorsHex c = true) (hq : paletteHex q = true) :
    GoodEnv (envCQ c q) := by
  have hall : ([c.bg, c.tx, c.link, c.sidebar, c.tableHeader, c.tableBorder, c.hoverRow,
      c.popupBg, c.popupBorder, c.btnBlue, c.btnBlueHov, c.btnStart,
      c.btnStartHov, c.btnPreset, c.btnPresetHov, c.btnYellow, c.btnYellowHov,
      c.btnRed, c.btnRedHov,
      q.bgPrimary, q.textPrimary, q.link, q.sidebar, q.th1, q.th2, q.th3, q.th4,
      q.tdBorder, q.hovOdd, q.hovEven, q.popupBg, q.popupBorder, q.btnBlue,
      q.btnBlueHov, q.btnStart, q.btnStartHov, q.btnPreset, q.btnPresetHov,
      q.btnYellow, q.btnYellowHov, q.btnRed, q.btnRedHov].all isHexColorB) = true := by
    show (([c.bg, c.tx, c.link, c.sidebar, c.tableHeader, c.tableBorder, c.hoverRow,
      c.popupBg, c.popupBorder, c.btnBlue, c.btnBlueHov, c.btnStart,
      c.btnStartHov, c.btnPreset, c.btnPresetHov, c.btnYellow, c.btnYellowHov,
      c.btnRed, c.btnRedHov] ++
      [q.bgPrimary, q.textPrimary, q.link, q.sidebar, q.th1, q.th2, q.th3, q.th4,
      q.tdBorder, q.hovOdd, q.hovEven, q.popupBg, q.popupBorder, q.btnBlue,
      q.btnBlueHov, q.btnStart, q.btnStartHov, q.btnPreset, q.btnPresetHov,
      q.btnYellow, q.btnYellowHov, q.btnRed, q.btnRedHov]).all isHexColorB) = true
    rw [List.all_append]
    unfold themeColorsHex at hc
    unfold paletteHex at hq
    rw [hc, hq]
    rfl
  intro i
  exact isHexColorB_shape _ (getD_hexColor _ hall i)

theorem aIsPrefixOf_sound (v : Nat → List Char) (hv : GoodEnv v) :
    ∀ (l : List Char) (s : List AC) (b : Bool), aIsPrefixOf l s = some b →
      l.isPrefixOf (inst v s) = b := by
  intro l
  induction l with
  | nil =>
    intro s b h
    simp only [aIsPrefixOf, Option.some.injEq] at h
    subst h
    cases inst v s <;> rfl
  | cons c cs ih =>
    intro s b h
    cases s with
    | nil =>
      simp only [aIsPrefixOf, Option.some.injEq] at h
      subst h
      rfl
    | cons a as =>
      cases a with
      | conc d =>
        by_cases hcd : c = d
        · subst hcd
          simp only [aIsPrefixOf, if_pos rfl] at h
          have hrec := ih as b h
          show (c == c && cs.isPrefixOf (inst v as)) = b
          rw [beq_self_eq_true, Bool.true_and]
          exact hrec
        · simp only [aIsPrefixOf, if_neg hcd, Option.some.injEq] at h
          subst h
          show (c == d && cs.isPrefixOf (inst v as)) = false
          rw [beq_eq_false_iff_ne.mpr hcd, Bool.false_and]
      | pd i j =>
        have hd : isHexDig (instAC v (AC.pd i j)) = true := instAC_pd_hex v hv i j
        by_cases hc : isHexDig c = true
        · simp only [aIsPrefixOf, if_pos hc] at h
          cases hin : aIsPrefixOf cs as with
          | none => rw [hin] at h; cases h
          | some bb =>
            rw [hin] at h
            cases bb with
            | true => cases h
            | false =>
              simp only [Option.some.injEq] at h
              subst h
              have hrec := ih as false hin
              show (c == instAC v (AC.pd i j) && cs.isPrefixOf (inst v as)) = false
              rw [hrec, Bool.and_false]
        · have hc2 : isHexDig c = false := by
            revert hc; cases isHexDig c <;> simp
          simp only [aIsPrefixOf, hc2, Bool.false_eq_true, if_false,
            Option.some.injEq] at h
          subst h
          have hne : c ≠ instAC v (AC.pd i j) := by
            intro he; rw [he, hd] at hc2; cases hc2
          show (c == instAC v (AC.pd i j) && cs.isPrefixOf (inst v as)) = false
          rw [beq_eq_false_iff_ne.mpr hne, Bool.false_and]

theorem takeWhile_inst (v : Nat → List Char) (hv : GoodEnv v) (p : Char → Bool)
    (hp : ∀ c, isHexDig c = true → p c = p 'a') (s : List AC) :
    (inst v s).takeWhile p = inst v (s.takeWhile (aChar p)) := by
  induction s with
  | nil => rfl
  | cons a as ih =>
    have hpa : p (instAC v a) = aChar p a := by
      cases a with
      | conc c => rfl
      | pd i j => exact hp _ (instAC_pd_hex v hv i j)
    rw [inst_cons, List.takeWhile_cons, hpa, List.takeWhile_cons]
    cases hb : aChar p a
    · rw [if_neg (by simp [hb]), if_neg (by simp [hb])]
      rfl
    · rw [if_pos (by simp [hb]), if_pos (by simp [hb]), inst_cons, ih]

theorem aFirstSome_sound (cands : List Nat) (f : Nat → Option (Option (List Nat)))
    (g : Nat → Option (List Nat))
    (hfg : ∀ i ∈ cands, ∀ r, f i = some r → g i = r) :
    ∀ r, aFirstSome cands f = some r →
      firstSome cands (fun i => (g i).map (fun ns => i :: ns)) = r := by
  induction cands with
  | nil =>
    intro r h
    simp only [aFirstSome, Option.some.injEq] at h
    subst h
    rfl
  | cons i is ih =>
    intro r h
    simp only [aFirstSome] at h
    cases hfi : f i with
    | none => rw [hfi] at h; cases h
    | some ri =>
      rw [hfi] at h
      have hgi : g i = ri := hfg i (List.mem_cons_self i is) ri hfi
      cases ri with
      | some ns =>
        simp only [Option.some.injEq] at h
        subst h
        show List.findSome? _ (i :: is) = some (i :: ns)
        rw [List.findSome?_cons]
        simp [hgi]
      | none =>
        have hrec := ih (fun j hj => hfg j (List.mem_cons_of_mem i hj)) r h
        show List.findSome? _ (i :: is) = r
        rw [List.findSome?_cons]
        simp only [hgi, Option.map_none']
        exact hrec

theorem aMatchElems_sound (v : Nat → List Char) (hv : GoodEnv v) :
    ∀ (elems : List RElem), ElemsOK elems →
      ∀ (s : List AC) (r : Option (List Nat)), aMatchElems elems s = some r →
        matchElems elems (inst v s) = r := by
  intro elems
  induction elems with
  | nil =>
    intro _ s r h
    simp only [aMatchElems, Option.some.injEq] at h
    subst h
    rfl
  | cons e rest ih =>
    intro hok s r h
    have hokr : ElemsOK rest := fun p q hm => hok p q (List.mem_cons_of_mem _ hm)
    cases e with
    | lit l =>
      simp only [aMatchElems] at h
      cases hpre : aIsPrefixOf l s with
      | none => rw [hpre] at h; cases h
      | some bpre =>
        rw [hpre] at h
        have hcpre := aIsPrefixOf_sound v hv l s bpre hpre
        cases bpre with
        | false =>
          simp only [Option.some.injEq] at h
          subst h
          simp [matchElems, hcpre]
        | true =>
          cases hrec : aMatchElems rest (s.drop l.length) with
          | none => rw [hrec] at h; cases h
          | some rr =>
            rw [hrec] at h
            simp only [Option.some.injEq] at h
            subst h
            have hc := ih hokr (s.drop l.length) rr hrec
            rw [inst_drop] at hc
            simp [matchElems, hcpre, hc]
    | cls p q =>
      have hps : ∀ c2, isHexDig c2 = true → p c2 = p 'a' :=
        hok p q (List.mem_cons_self _ _)
      simp only [aMatchElems] at h
      have hm : ((inst v s).takeWhile p).length = (s.takeWhile (aChar p)).length := by
        rw [takeWhile_inst v hv p hps s, inst_length]
      simp only [matchElems, hm]
      exact aFirstSome_sound _ _ _
        (fun i _ rr hrr => by
          have hx := ih hokr (s.drop i) rr hrr
          rwa [inst_drop] at hx) r h

theorem aMatchPat_sound (v : Nat → List Char) (hv : GoodEnv v) (p : Pattern)
    (hok : ElemsOK (p.pre ++ p.grp ++ p.post)) (s : List AC) :
    ∀ r, aMatchPat p s = some r → matchPat p (inst v s) = r := by
  intro r h
  unfold aMatchPat at h
  cases hme : aMatchElems (p.pre ++ p.grp ++ p.post) s with
  | none => rw [hme] at h; cases h
  | some rr =>
    rw [hme] at h
    have hc := aMatchElems_sound v hv _ hok s rr hme
    cases rr with
    | none =>
      simp only [Option.some.injEq] at h
      subst h
      unfold matchPat
      rw [hc]
      rfl
    | some ns =>
      simp only [Option.some.injEq] at h
      subst h
      unfold matchPat
      rw [hc]
      rfl

theorem aReSubAux_sound (v : Nat → List Char) (hv : GoodEnv v) (ar : ARule)
    (hok : ElemsOK (ar.pat.pre ++ ar.pat.grp ++ ar.pat.post)) :
    ∀ (fuel : Nat) (s res : List AC), aReSubAux ar fuel s = some res →
      reSubAux (instARule v ar) fuel (inst v s) = inst v res := by
  intro fuel
  induction fuel with
  | zero =>
    intro s res h
    simp only [aReSubAux, Option.some.injEq] at h
    subst h
    rfl
  | succ fuel ih =>
    intro s res h
    cases s with
    | nil =>
      simp only [aReSubAux, Option.some.injEq] at h
      subst h
      rfl
    | cons a as =>
      simp only [aReSubAux] at h
      cases hmp : aMatchPat ar.pat (a :: as) with
      | none => rw [hmp] at h; cases h
      | some mr =>
        rw [hmp] at h
        have hcm : matchPat ar.pat (instAC v a :: inst v as) = mr := by
          have hx := aMatchPat_sound v hv ar.pat hok (a :: as) mr hmp
          rwa [inst_cons] at hx
        have hpat : (instARule v ar).pat = ar.pat := rfl
        cases mr with
        | none =>
          cases hrec : aReSubAux ar fuel as with
          | none => rw [hrec] at h; cases h
          | some res1 =>
            rw [hrec] at h
            simp only [Option.map_some', Option.some.injEq] at h
            subst h
            have hr := ih as res1 hrec
            rw [inst_cons]
            show reSubAux (instARule v ar) (fuel + 1) (instAC v a :: inst v as)
              = inst v (a :: res1)
            simp only [reSubAux]
            rw [hpat, hcm]
            simp only []
            rw [inst_cons, hr]
        | some t =>
          obtain ⟨preL, grpL, tot⟩ := t
          simp only [] at h
          by_cases htot : tot = 0
          · rw [if_pos htot] at h
            cases hrec : aReSubAux ar fuel as with
            | none => rw [hrec] at h; cases h
            | some res1 =>
              rw [hrec] at h
              simp only [Option.map_some', Option.some.injEq] at h
              subst h
              have hr := ih as res1 hrec
              rw [inst_cons]
              show reSubAux (instARule v ar) (fuel + 1) (instAC v a :: inst v as)
                = inst v (a :: res1)
              simp only [reSubAux]
              rw [hpat, hcm]
              simp only []
              rw [if_pos htot, inst_cons, hr]
          · rw [if_neg htot] at h
            cases hrec : aReSubAux ar fuel ((a :: as).drop tot) with
            | none => rw [hrec] at h; cases h
            | some res1 =>
              rw [hrec] at h
              simp only [Option.map_some', Option.some.injEq] at h
              subst h
              have hr := ih ((a :: as).drop tot) res1 hrec
              rw [inst_cons]
              show reSubAux (instARule v ar) (fuel + 1) (instAC v a :: inst v as)
                = inst v ((if ar.keepGroup then ((a :: as).drop preL).take grpL else [])
                    ++ ar.atail ++ res1)
              simp only [reSubAux]
              rw [hpat, hcm]
              simp only []
              rw [if_neg htot]
              rw [inst_append, inst_append]
              have hdrop : inst v ((a :: as).drop tot) = (instAC v a :: inst v as).drop tot := by
                rw [← inst_cons, inst_drop]
              rw [← hdrop, hr]
              have htl : (instARule v ar).tail = inst v ar.atail := rfl
              rw [htl]
              have hgrp : inst v (if ar.keepGroup then ((a :: as).drop preL).take grpL else [])
                  = (if (instARule v ar).keepGroup
                      then ((instAC v a :: inst v as).drop preL).take grpL else []) := by
                have hkg : (instARule v ar).keepGroup = ar.keepGroup := rfl
                rw [hkg]
                cases ar.keepGroup
                · rfl
                · rw [if_pos rfl, if_pos rfl, ← inst_cons, inst_take, inst_drop]
              rw [hgrp]

theorem aReSub_sound (v : Nat → List Char) (hv : GoodEnv v) (ar : ARule)
    (hok : ElemsOK (ar.pat.pre ++ ar.pat.grp ++ ar.pat.post))
    (s res : List AC) (h : aReSub ar s = some res) :
    reSub (instARule v ar) (inst v s) = inst v res := by
  unfold aReSub at h
  unfold reSub
  rw [inst_length]
  exact aReSubAux_sound v hv ar hok s.length s res h

theorem aApplyRules_sound (v : Nat → List Char) (hv : GoodEnv v) :
    ∀ (ars : List ARule),
      (∀ ar ∈ ars, ElemsOK (ar.pat.pre ++ ar.pat.grp ++ ar.pat.post)) →
      ∀ (s res : List AC), aApplyRules ars s = some res →
        (ars.map (instARule v)).foldl (fun acc r => reSub r acc) (inst v s) = inst v res := by
  intro ars
  induction ars with
  | nil =>
    intro _ s res h
    simp only [aApplyRules, Option.some.injEq] at h
    subst h
    rfl
  | cons ar ars ih =>
    intro hok s res h
    simp only [aApplyRules] at h
    cases hr : aReSub ar s with
    | none => rw [hr] at h; cases h
    | some s1 =>
      rw [hr] at h
      have h1 := aReSub_sound v hv ar (hok ar (List.mem_cons_self _ _)) s s1 hr
      have h2 := ih (fun b hb => hok b (List.mem_cons_of_mem _ hb)) s1 res h
      simp only [List.map_cons, List.foldl_cons, h1]
      exact h2

/-! ### The classes of every rule are constant on hex digits -/

theorem elemsOK_nil : ElemsOK [] := by
  intro p q hm
  cases hm

theorem elemsOK_cons_lit (l : List Char) (rest : List RElem) (h : ElemsOK rest) :
    ElemsOK (.lit l :: rest) := by
  intro p q hm
  rcases List.mem_cons.mp hm with heq | hmem
  · exact absurd heq (by simp)
  · exact h p q hmem

theorem elemsOK_cons_cls (p : Char → Bool) (q : Quant) (rest : List RElem)
    (hp : ∀ c, isHexDig c = true → p c = p 'a') (h : ElemsOK rest) :
    ElemsOK (.cls p q :: rest) := by
  intro p2 q2 hm
  rcases List.mem_cons.mp hm with heq | hmem
  · injection heq with h1 h2
    subst h1
    exact hp
  · exact h p2 q2 hmem

theorem elemsOK_append (l1 l2 : List RElem) (h1 : ElemsOK l1) (h2 : ElemsOK l2) :
    ElemsOK (l1 ++ l2) := by
  intro p q hm
  rcases List.mem_append.mp hm with hm1 | hm2
  · exact h1 p q hm1
  · exact h2 p q hm2

theorem hex_ne (c d : Char) (hc : isHexDig c = true) (hd : isHexDig d = false) :
    c ≠ d := by
  intro he
  rw [he, hd] at hc
  cases hc

theorem hexStable_isWs : ∀ c, isHexDig c = true → isWs c = isWs 'a' := by
  intro c hc
  have h1 : isWs c = false := by
    cases hw : isWs c
    · rfl
    · exfalso
      simp only [isWs, Bool.or_eq_true, decide_eq_true_eq] at hw
      rcases hw with ((((h | h) | h) | h) | h) | h <;> (subst h; exact absurd hc (by decide))
  rw [h1]
  decide

theorem hexStable_isHexDig : ∀ c, isHexDig c = true → isHexDig c = isHexDig 'a' := by
  intro c hc
  rw [hc]
  decide

theorem hexStable_ne_conc (d : Char) (hd : isHexDig d = false) :
    ∀ c, isHexDig c = true → (!decide (c = d)) = (!decide ('a' = d)) := by
  intro c hc
  rw [decide_eq_false (hex_ne c d hc hd), decide_eq_false (hex_ne 'a' d (by decide) hd)]

theorem elemsOK_ws_cons (rest : List RElem) (h : ElemsOK rest) :
    ElemsOK (wsStar :: rest) :=
  elemsOK_cons_cls isWs .star rest hexStable_isWs h

theorem elemsOK_hex6_cons (rest : List RElem) (h : ElemsOK rest) :
    ElemsOK (hex6 :: rest) :=
  elemsOK_cons_cls isHexDig (.rep 6) rest hexStable_isHexDig h

theorem elemsOK_notRB_cons (rest : List RElem) (h : ElemsOK rest) :
    ElemsOK (notRBStar :: rest) :=
  elemsOK_cons_cls _ .star rest (hexStable_ne_conc rbrace (by decide)) h

theorem elemsOK_notSemi_cons (rest : List RElem) (h : ElemsOK rest) :
    ElemsOK (notSemiLazy :: rest) :=
  elemsOK_cons_cls _ .lazy rest (hexStable_ne_conc ';' (by decide)) h

/-- Shape of most structural groups: selector literal, `\s*`, `{`, `[^}]*`,
property literal, `\s*`. -/
theorem elemsOK_selWs (a b c : List Char) :
    ElemsOK [.lit a, wsStar, .lit b, notRBStar, .lit c, wsStar] :=
  elemsOK_cons_lit _ _ (elemsOK_ws_cons _ (elemsOK_cons_lit _ _ (elemsOK_notRB_cons _
    (elemsOK_cons_lit _ _ (elemsOK_ws_cons _ elemsOK_nil)))))

/-- Shape of the border groups: the property value is matched by `[^;]*?`. -/
theorem elemsOK_selSemi (a b c : List Char) :
    ElemsOK [.lit a, wsStar, .lit b, notRBStar, .lit c, notSemiLazy] :=
  elemsOK_cons_lit _ _ (elemsOK_ws_cons _ (elemsOK_cons_lit _ _ (elemsOK_notRB_cons _
    (elemsOK_cons_lit _ _ (elemsOK_notSemi_cons _ elemsOK_nil)))))

/-- Shape of the groups that go straight into `[^}]*`. -/
theorem elemsOK_selNoBrace (a b : List Char) :
    ElemsOK [.lit a, notRBStar, .lit b, wsStar] :=
  elemsOK_cons_lit _ _ (elemsOK_notRB_cons _
    (elemsOK_cons_lit _ _ (elemsOK_ws_cons _ elemsOK_nil)))

theorem ruleOK_var (vn : String) (i : Nat) :
    ElemsOK ((aVarRule vn i).pat.pre ++ (aVarRule vn i).pat.grp ++ (aVarRule vn i).pat.post) :=
  elemsOK_append _ _ (elemsOK_append _ _
      (elemsOK_cons_lit _ _ (elemsOK_ws_cons _ (elemsOK_cons_lit _ _
        (elemsOK_hex6_cons _ elemsOK_nil)))) elemsOK_nil)
    elemsOK_nil

theorem ruleOK_struct (g : List RElem) (i : Nat) (hg : ElemsOK g) :
    ElemsOK ((aStructRule g i).pat.pre ++ (aStructRule g i).pat.grp ++ (aStructRule g i).pat.post) :=
  elemsOK_append _ _ (elemsOK_append _ _ elemsOK_nil hg)
    (elemsOK_cons_lit _ _ (elemsOK_hex6_cons _ elemsOK_nil))

theorem aRulesOK : ∀ ar ∈ aRules, ElemsOK (ar.pat.pre ++ ar.pat.grp ++ ar.pat.post) := by
  intro ar har
  simp only [aRules, List.mem_cons, List.not_mem_nil, or_false] at har
  rcases har with rfl | rfl | rfl | rfl | rfl | rfl | rfl | rfl | rfl | rfl | rfl | rfl |
    rfl | rfl | rfl | rfl | rfl | rfl | rfl | rfl | rfl | rfl | rfl
  · exact ruleOK_var _ _
  · exact ruleOK_var _ _
  · exact ruleOK_struct _ _ (elemsOK_selWs _ _ _)
  · exact ruleOK_struct _ _ (elemsOK_selWs _ _ _)
  · exact ruleOK_struct _ _ (elemsOK_selWs _ _ _)
  · exact ruleOK_struct _ _ (elemsOK_selWs _ _ _)
  · exact ruleOK_struct _ _ (elemsOK_selWs _ _ _)
  · exact ruleOK_struct _ _ (elemsOK_selNoBrace _ _)
  · exact ruleOK_struct _ _ (elemsOK_selSemi _ _ _)
  · exact ruleOK_struct _ _ (elemsOK_selNoBrace _ _)
  · exact ruleOK_struct _ _ (elemsOK_selNoBrace _ _)
  · exact ruleOK_struct _ _ (elemsOK_selWs _ _ _)
  · exact ruleOK_struct _ _ (elemsOK_selSemi _ _ _)
  · exact ruleOK_struct _ _ (elemsOK_selWs _ _ _)
  · exact ruleOK_struct _ _ (elemsOK_selWs _ _ _)
  · exact ruleOK_struct _ _ (elemsOK_selWs _ _ _)
  · exact ruleOK_struct _ _ (elemsOK_selWs _ _ _)
  · exact ruleOK_struct _ _ (elemsOK_selWs _ _ _)
  · exact ruleOK_struct _ _ (elemsOK_selWs _ _ _)
  · exact ruleOK_struct _ _ (elemsOK_selWs _ _ _)
  · exact ruleOK_struct _ _ (elemsOK_selWs _ _ _)
  · exact ruleOK_struct _ _ (elemsOK_selWs _ _ _)
  · exact ruleOK_struct _ _ (elemsOK_selWs _ _ _)

/-! ### The abstract rules denote the replacement list built from the theme -/

theorem instARule_var (v : Nat → List Char) (hv : GoodEnv v) (vn : String) (i : Nat)
    (s : String) (hs : v i = s.data) :
    instARule v (aVarRule vn i) = varRule vn s := by
  have htail : inst v (cA ("--" ++ vn ++ ": ") ++ hole i) = ("--" ++ vn ++ ": " ++ s).data := by
    rw [inst_append, inst_cA, inst_hole v hv i, hs]
    simp only [String.data_append, List.append_assoc]
  show Rule.mk ((varRule vn "").pat) false (inst v (cA ("--" ++ vn ++ ": ") ++ hole i))
    = varRule vn s
  rw [htail]
  rfl

theorem instARule_struct (v : Nat → List Char) (hv : GoodEnv v) (g : List RElem) (i : Nat)
    (s : String) (hs : v i = s.data) :
    instARule v (aStructRule g i) = structRule g s := by
  show Rule.mk ((structRule g "").pat) true (inst v (hole i)) = structRule g s
  rw [inst_hole v hv i, hs]
  rfl

theorem buildReplacements_mkTheme (c : ThemeColors) (q : PaletteB)
    (hc : themeColorsHex c = true) (hq : paletteHex q = true) :
    buildReplacements (mkTheme c) = some (aRules.map (instARule (envCQ c q))) := by
  have hv : GoodEnv (envCQ c q) := goodEnv_envCQ c q hc hq
  have hL : buildReplacements (mkTheme c) = some
      [varRule "bg-primary" c.bg, varRule "text-primary" c.tx,
       structRule linkGrp c.link, structRule sidebarGrp c.sidebar,
       structRule stripesGrp c.tableHeader, structRule tableHeaderGrp c.tableHeader,
       structRule tableSmallHeaderGrp c.tableHeader, structRule tableSpacerGrp c.tableHeader,
       structRule contentTdGrp c.tableBorder, structRule hoverOddGrp c.hoverRow,
       structRule hoverEvenGrp c.hoverRow, structRule popupBgGrp c.popupBg,
       structRule popupBorderGrp c.popupBorder,
       structRule (btnBaseGrp "btn-blue") c.btnBlue,
       structRule (btnHoverGrp "btn-blue") c.btnBlueHov,
       structRule (btnBaseGrp "btn-start") c.btnStart,
       structRule (btnHoverGrp "btn-start") c.btnStartHov,
       structRule (btnBaseGrp "btn-preset") c.btnPreset,
       structRule (btnHoverGrp "btn-preset") c.btnPresetHov,
       structRule (btnBaseGrp "btn-yellow") c.btnYellow,
       structRule (btnHoverGrp "btn-yellow") c.btnYellowHov,
       structRule (btnBaseGrp "btn-red") c.btnRed,
       structRule (btnHoverGrp "btn-red") c.btnRedHov] := rfl
  rw [hL]
  simp only [aRules, List.map_cons, List.map_nil,
    instARule_var _ hv "bg-primary" 0 c.bg rfl,
    instARule_var _ hv "text-primary" 1 c.tx rfl,
    instARule_struct _ hv linkGrp 2 c.link rfl,
    instARule_struct _ hv sidebarGrp 3 c.sidebar rfl,
    instARule_struct _ hv stripesGrp 4 c.tableHeader rfl,
    instARule_struct _ hv tableHeaderGrp 4 c.tableHeader rfl,
    instARule_struct _ hv tableSmallHeaderGrp 4 c.tableHeader rfl,
    instARule_struct _ hv tableSpacerGrp 4 c.tableHeader rfl,
    instARule_struct _ hv contentTdGrp 5 c.tableBorder rfl,
    instARule_struct _ hv hoverOddGrp 6 c.hoverRow rfl,
    instARule_struct _ hv hoverEvenGrp 6 c.hoverRow rfl,
    instARule_struct _ hv popupBgGrp 7 c.popupBg rfl,
    instARule_struct _ hv popupBorderGrp 8 c.popupBorder rfl,
    instARule_struct _ hv (btnBaseGrp "btn-blue") 9 c.btnBlue rfl,
    instARule_struct _ hv (btnHoverGrp "btn-blue") 10 c.btnBlueHov rfl,
    instARule_struct _ hv (btnBaseGrp "btn-start") 11 c.btnStart rfl,
    instARule_struct _ hv (btnHoverGrp "btn-start") 12 c.btnStartHov rfl,
    instARule_struct _ hv (btnBaseGrp "btn-preset") 13 c.btnPreset rfl,
    instARule_struct _ hv (btnHoverGrp "btn-preset") 14 c.btnPresetHov rfl,
    instARule_struct _ hv (btnBaseGrp "btn-yellow") 15 c.btnYellow rfl,
    instARule_struct _ hv (btnHoverGrp "btn-yellow") 16 c.btnYellowHov rfl,
    instARule_struct _ hv (btnBaseGrp "btn-red") 17 c.btnRed rfl,
    instARule_struct _ hv (btnHoverGrp "btn-red") 18 c.btnRedHov rfl]

/-! ### The abstract templates denote the concrete stylesheets -/

theorem inst_aT0 (c : ThemeColors) (q : PaletteB)
    (hc : themeColorsHex c = true) (hq : paletteHex q = true) :
    inst (envCQ c q) aT0 = cssTemplateB q := by
  have hv : GoodEnv (envCQ c q) := goodEnv_envCQ c q hc hq
  simp only [aT0, aTpl, inst_append, inst_cA, inst_hole _ hv, cssTemplateB,
    String.data_append, List.append_assoc]
  rfl

theorem inst_aT1 (c : ThemeColors) (q : PaletteB)
    (hc : themeColorsHex c = true) (hq : paletteHex q = true) :
    inst (envCQ c q) aT1 = cssTemplateB (themedPaletteB c) := by
  have hv : GoodEnv (envCQ c q) := goodEnv_envCQ c q hc hq
  simp only [aT1, aTpl, inst_append, inst_cA, inst_hole _ hv, cssTemplateB, themedPaletteB,
    String.data_append, List.append_assoc]
  rfl

theorem aApplyRules_cons_eq (ar : ARule) (ars : List ARule) (s s1 : List AC)
    (h : aReSub ar s = some s1) :
    aApplyRules (ar :: ars) s = aApplyRules ars s1 := by
  simp only [aApplyRules, h]

/-- Rule 1 of the replacement list rewrites slot 1, one definite scan. -/
theorem aStep1 :
    aReSub (aVarRule "bg-primary" 0) (aTpl 19 20 21 22 23 24 25 26 27 28 29 30 31 32 33 34 35 36 37 38 39 40 41)
      = some (aTpl 0 20 21 22 23 24 25 26 27 28 29 30 31 32 33 34 35 36 37 38 39 40 41) := rfl

/-- Rule 2 of the replacement list rewrites slot 2, one definite scan. -/
theorem aStep2 :
    aReSub (aVarRule "text-primary" 1) (aTpl 0 20 21 22 23 24 25 26 27 28 29 30 31 32 33 34 35 36 37 38 39 40 41)
      = some (aTpl 0 1 21 22 23 24 25 26 27 28 29 30 31 32 33 34 35 36 37 38 39 40 41) := rfl

/-- Rule 3 of the replacement list rewrites slot 3, one definite scan. -/
theorem aStep3 :
    aReSub (aStructRule linkGrp 2) (aTpl 0 1 21 22 23 24 25 26 27 28 29 30 31 32 33 34 35 36 37 38 39 40 41)
      = some (aTpl 0 1 2 22 23 24 25 26 27 28 29 30 31 32 33 34 35 36 37 38 39 40 41) := rfl

/-- Rule 4 of the replacement list rewrites slot 4, one definite scan. -/
theorem aStep4 :
    aReSub (aStructRule sidebarGrp 3) (aTpl 0 1 2 22 23 24 25 26 27 28 29 30 31 32 33 34 35 36 37 38 39 40 41)
      = some (aTpl 0 1 2 3 23 24 25 26 27 28 29 30 31 32 33 34 35 36 37 38 39 40 41) := rfl

/-- Rule 5 of the replacement list rewrites slot 5, one definite scan. -/
theorem aStep5 :
    aReSub (aStructRule stripesGrp 4) (aTpl 0 1 2 3 23 24 25 26 27 28 29 30 31 32 33 34 35 36 37 38 39 40 41)
      = some (aTpl 0 1 2 3 4 24 25 26 27 28 29 30 31 32 33 34 35 36 37 38 39 40 41) := rfl

/-- Rule 6 of the replacement list rewrites slot 6, one definite scan. -/
theorem aStep6 :
    aReSub (aStructRule tableHeaderGrp 4) (aTpl 0 1 2 3 4 24 25 26 27 28 29 30 31 32 33 34 35 36 37 38 39 40 41)
      = some (aTpl 0 1 2 3 4 4 25 26 27 28 29 30 31 32 33 34 35 36 37 38 39 40 41) := rfl

/-- Rule 7 of the replacement list rewrites slot 7, one definite scan. -/
theorem aStep7 :
    aReSub (aStructRule tableSmallHeaderGrp 4) (aTpl 0 1 2 3 4 4 25 26 27 28 29 30 31 32 33 34 35 36 37 38 39 40 41)
      = some (aTpl 0 1 2 3 4 4 4 26 27 28 29 30 31 32 33 34 35 36 37 38 39 40 41) := rfl

/-- Rule 8 of the replacement list rewrites slot 8, one definite scan. -/
theorem aStep8 :
    aReSub (aStructRule tableSpacerGrp 4) (aTpl 0 1 2 3 4 4 4 26 27 28 29 30 31 32 33 34 35 36 37 38 39 40 41)
      = some (aTpl 0 1 2 3 4 4 4 4 27 28 29 30 31 32 33 34 35 36 37 38 39 40 41) := rfl

/-- Rule 9 of the replacement list rewrites slot 9, one definite scan. -/
theorem aStep9 :
    aReSub (aStructRule contentTdGrp 5) (aTpl 0 1 2 3 4 4 4 4 27 28 29 30 31 32 33 34 35 36 37 38 39 40 41)
      = some (aTpl 0 1 2 3 4 4 4 4 5 28 29 30 31 32 33 34 35 36 37 38 39 40 41) := rfl

/-- Rule 10 of the replacement list rewrites slot 10, one definite scan. -/
theorem aStep10 :
    aReSub (aStructRule hoverOddGrp 6) (aTpl 0 1 2 3 4 4 4 4 5 28 29 30 31 32 33 34 35 36 37 38 39 40 41)
      = some (aTpl 0 1 2 3 4 4 4 4 5 6 29 30 31 32 33 34 35 36 37 38 39 40 41) := rfl

/-- Rule 11 of the replacement list rewrites slot 11, one definite scan. -/
theorem aStep11 :
    aReSub (aStructRule hoverEvenGrp 6) (aTpl 0 1 2 3 4 4 4 4 5 6 29 30 31 32 33 34 35 36 37 38 39 40 41)
      = some (aTpl 0 1 2 3 4 4 4 4 5 6 6 30 31 32 33 34 35 36 37 38 39 40 41) := rfl

/-- Rule 12 of the replacement list rewrites slot 12, one definite scan. -/
theorem aStep12 :
    aReSub (aStructRule popupBgGrp 7) (aTpl 0 1 2 3 4 4 4 4 5 6 6 30 31 32 33 34 35 36 37 38 39 40 41)
      = some (aTpl 0 1 2 3 4 4 4 4 5 6 6 7 31 32 33 34 35 36 37 38 39 40 41) := rfl

/-- Rule 13 of the replacement list rewrites slot 13, one definite scan. -/
theorem aStep13 :
    aReSub (aStructRule popupBorderGrp 8) (aTpl 0 1 2 3 4 4 4 4 5 6 6 7 31 32 33 34 35 36 37 38 39 40 41)
      = some (aTpl 0 1 2 3 4 4 4 4 5 6 6 7 8 32 33 34 35 36 37 38 39 40 41) := rfl

/-- Rule 14 of the replacement list rewrites slot 14, one definite scan. -/
theorem aStep14 :
    aReSub (aStructRule (btnBaseGrp "btn-blue") 9) (aTpl 0 1 2 3 4 4 4 4 5 6 6 7 8 32 33 34 35 36 37 38 39 40 41)
      = some (aTpl 0 1 2 3 4 4 4 4 5 6 6 7 8 9 33 34 35 36 37 38 39 40 41) := rfl

/-- Rule 15 of the replacement list rewrites slot 15, one definite scan. -/
theorem aStep15 :
    aReSub (aStructRule (btnHoverGrp "btn-blue") 10) (aTpl 0 1 2 3 4 4 4 4 5 6 6 7 8 9 33 34 35 36 37 38 39 40 41)
      = some (aTpl 0 1 2 3 4 4 4 4 5 6 6 7 8 9 10 34 35 36 37 38 39 40 41) := rfl

/-- Rule 16 of the replacement list rewrites slot 16, one definite scan. -/
theorem aStep16 :
    aReSub (aStructRule (btnBaseGrp "btn-start") 11) (aTpl 0 1 2 3 4 4 4 4 5 6 6 7 8 9 10 34 35 36 37 38 39 40 41)
      = some (aTpl 0 1 2 3 4 4 4 4 5 6 6 7 8 9 10 11 35 36 37 38 39 40 41) := rfl

/-- Rule 17 of the replacement list rewrites slot 17, one definite scan. -/
theorem aStep17 :
    aReSub (aStructRule (btnHoverGrp "btn-start") 12) (aTpl 0 1 2 3 4 4 4 4 5 6 6 7 8 9 10 11 35 36 37 38 39 40 41)
      = some (aTpl 0 1 2 3 4 4 4 4 5 6 6 7 8 9 10 11 12 36 37 38 39 40 41) := rfl

/-- Rule 18 of the replacement list rewrites slot 18, one definite scan. -/
theorem aStep18 :
    aReSub (aStructRule (btnBaseGrp "btn-preset") 13) (aTpl 0 1 2 3 4 4 4 4 5 6 6 7 8 9 10 11 12 36 37 38 39 40 41)
      = some (aTpl 0 1 2 3 4 4 4 4 5 6 6 7 8 9 10 11 12 13 37 38 39 40 41) := rfl

/-- Rule 19 of the replacement list rewrites slot 19, one definite scan. -/
theorem aStep19 :
    aReSub (aStructRule (btnHoverGrp "btn-preset") 14) (aTpl 0 1 2 3 4 4 4 4 5 6 6 7 8 9 10 11 12 13 37 38 39 40 41)
      = some (aTpl 0 1 2 3 4 4 4 4 5 6 6 7 8 9 10 11 12 13 14 38 39 40 41) := rfl

/-- Rule 20 of the replacement list rewrites slot 20, one definite scan. -/
theorem aStep20 :
    aReSub (aStructRule (btnBaseGrp "btn-yellow") 15) (aTpl 0 1 2 3 4 4 4 4 5 6 6 7 8 9 10 11 12 13 14 38 39 40 41)
      = some (aTpl 0 1 2 3 4 4 4 4 5 6 6 7 8 9 10 11 12 13 14 15 39 40 41) := rfl

/-- Rule 21 of the replacement list rewrites slot 21, one definite scan. -/
theorem aStep21 :
    aReSub (aStructRule (btnHoverGrp "btn-yellow") 16) (aTpl 0 1 2 3 4 4 4 4 5 6 6 7 8 9 10 11 12 13 14 15 39 40 41)
      = some (aTpl 0 1 2 3 4 4 4 4 5 6 6 7 8 9 10 11 12 13 14 15 16 40 41) := rfl

/-- Rule 22 of the replacement list rewrites slot 22, one definite scan. -/
theorem aStep22 :
    aReSub (aStructRule (btnBaseGrp "btn-red") 17) (aTpl 0 1 2 3 4 4 4 4 5 6 6 7 8 9 10 11 12 13 14 15 16 40 41)
      = some (aTpl 0 1 2 3 4 4 4 4 5 6 6 7 8 9 10 11 12 13 14 15 16 17 41) := rfl

/-- Rule 23 of the replacement list rewrites slot 23, one definite scan. -/
theorem aStep23 :
    aReSub (aStructRule (btnHoverGrp "btn-red") 18) (aTpl 0 1 2 3 4 4 4 4 5 6 6 7 8 9 10 11 12 13 14 15 16 17 41)
      = some (aTpl 0 1 2 3 4 4 4 4 5 6 6 7 8 9 10 11 12 13 14 15 16 17 18) := rfl

/-- The abstract interpreter runs all twenty-three rules to completion on the
abstract stylesheet, every step definite, producing the themed abstract
stylesheet. -/
theorem aRules_run : aApplyRules aRules aT0 = some aT1 := by
  simp only [aRules, aT0, aT1]
  rw [aApplyRules_cons_eq _ _ _ _ aStep1]
  rw [aApplyRules_cons_eq _ _ _ _ aStep2]
  rw [aApplyRules_cons_eq _ _ _ _ aStep3]
  rw [aApplyRules_cons_eq _ _ _ _ aStep4]
  rw [aApplyRules_cons_eq _ _ _ _ aStep5]
  rw [aApplyRules_cons_eq _ _ _ _ aStep6]
  rw [aApplyRules_cons_eq _ _ _ _ aStep7]
  rw [aApplyRules_cons_eq _ _ _ _ aStep8]
  rw [aApplyRules_cons_eq _ _ _ _ aStep9]
  rw [aApplyRules_cons_eq _ _ _ _ aStep10]
  rw [aApplyRules_cons_eq _ _ _ _ aStep11]
  rw [aApplyRules_cons_eq _ _ _ _ aStep12]
  rw [aApplyRules_cons_eq _ _ _ _ aStep13]
  rw [aApplyRules_cons_eq _ _ _ _ aStep14]
  rw [aApplyRules_cons_eq _ _ _ _ aStep15]
  rw [aApplyRules_cons_eq _ _ _ _ aStep16]
  rw [aApplyRules_cons_eq _ _ _ _ aStep17]
  rw [aApplyRules_cons_eq _ _ _ _ aStep18]
  rw [aApplyRules_cons_eq _ _ _ _ aStep19]
  rw [aApplyRules_cons_eq _ _ _ _ aStep20]
  rw [aApplyRules_cons_eq _ _ _ _ aStep21]
  rw [aApplyRules_cons_eq _ _ _ _ aStep22]
  rw [aApplyRules_cons_eq _ _ _ _ aStep23]
  rfl

/-- C1: for every valid theme descriptor — all required keys present and
every color value `#` followed by six hex digits — and every pristine
stylesheet of the spec-modelled shape (the two custom properties, all nine
structural selector blocks, and the five button blocks base and hover, with
arbitrary 6-hex original colors), `apply_theme`'s substitution pass succeeds
and rewrites exactly the targeted color values to the descriptor's
corresponding values (the four table-header-style slots receive
`table_header_bg`, the two hover-row slots `hover_row`), and all other text
is byte-for-byte unchanged: `cssTemplateB` is the stylesheet as a function of
its color slots, so the two sides differ exactly at the targeted slots. -/
theorem apply_theme_rewrites_exactly_the_targeted_colors
    (c : ThemeColors) (q : PaletteB)
    (hc : themeColorsHex c = true) (hq : paletteHex q = true) :
    applyContent (mkTheme c) (cssTemplateB q)
      = some (cssTemplateB (themedPaletteB c)) := by
  have hv : GoodEnv (envCQ c q) := goodEnv_envCQ c q hc hq
  have hfold := aApplyRules_sound (envCQ c q) hv aRules aRulesOK aT0 aT1 aRules_run
  unfold applyContent
  rw [buildReplacements_mkTheme c q hc hq]
  simp only [Option.map_some']
  rw [← inst_aT0 c q hc hq, hfold, inst_aT1 c q hc hq]

/-- Witness for C1: the quantified theorem applied at the canonical theme
colors and a concrete pristine palette, the hex-shape hypotheses discharged
by computation. -/
theorem apply_theme_rewrites_exactly_the_targeted_colors_witness :
    themeColorsHex canonicalColors = true ∧ paletteHex origPaletteB = true
    ∧ applyContent (mkTheme canonicalColors) (cssTemplateB origPaletteB)
        = some (cssTemplateB (themedPaletteB canonicalColors)) :=
  ⟨by decide, by decide,
    apply_theme_rewrites_exactly_the_targeted_colors canonicalColors origPaletteB
      (by decide) (by decide)⟩


/-- C4: starting from a config token `v6`, applying `theme_navy_blue.json`
rewrites it to `v6-navy_blue`; applying `theme_dark.json` on top yields
`v6-dark` (base preserved, suffix replaced); a token without a leading
`v<number>` falls back to base `6`.  The last conjunct runs the two applies
through the full filesystem-level pipeline. -/
theorem version_bump_preserves_base_and_replaces_suffix :
    update_static_version (some cfgV0) (themeNameOf "theme_navy_blue.json".data)
        = (some cfgNavy, .updated "v6".data "v6-navy_blue".data)
    ∧ update_static_version (some cfgNavy) (themeNameOf "theme_dark.json".data)
        = (some cfgDark, .updated "v6-navy_blue".data "v6-dark".data)
    ∧ update_static_version (some cfgBeta) (themeNameOf "theme_navy_blue.json".data)
        = (some cfgNavy, .updated "beta".data "v6-navy_blue".data)
    ∧ ((apply_theme_fs canonicalTheme "theme_navy_blue.json" fsV).bind
          (fun fs1 => apply_theme_fs canonicalTheme "theme_dark.json" fs1)).map FS.config
        = some (some cfgDark) := by
  refine ⟨by decide, by decide, by decide, by decide⟩

/-- C9: a missing config file and a config without an
`OPENBENCH_STATIC_VERSION` token are informational notices: the version bump
is skipped, the config is returned unchanged, and no error is produced (the
function is total and returns a notice, never a failure). -/
theorem missing_config_or_token_is_a_notice (name content : List Char)
    (h : reSearch versionPat content = none) :
    update_static_version none name = (none, VNote.noConfig)
    ∧ update_static_version (some content) name = (some content, VNote.noToken) := by
  refine ⟨rfl, ?_⟩
  simp [update_static_version, h]

/-- Witness for C9 at a concrete config containing no version token. -/
theorem missing_config_or_token_is_a_notice_witness :
    reSearch versionPat "VERSION = 1\n".data = none
    ∧ update_static_version (some "VERSION = 1\n".data) "navy_blue".data
        = (some "VERSION = 1\n".data, VNote.noToken) := by
  refine ⟨by decide, ?_⟩
  exact (missing_config_or_token_is_a_notice "navy_blue".data "VERSION = 1\n".data
    (by decide)).2

/-- C10: `apply_theme`'s path resolution errors only when the name exists
neither under the themes directory nor as a path of its own; an existing path
outside the themes directory is accepted as-is (after the preferred
`<themes_dir>/<name>` location). -/
theorem theme_file_resolution (w : World) (td tf : String) :
    (pathExists w (pjoin td tf) = false → pathExists w tf = true →
      resolveThemePath w td tf = .ok tf)
    ∧ (pathExists w (pjoin td tf) = false → pathExists w tf = false →
      resolveThemePath w td tf = .error ("Theme file not found: " ++ tf))
    ∧ (pathExists w (pjoin td tf) = true →
      resolveThemePath w td tf = .ok (pjoin td tf)) := by
  refine ⟨fun h1 h2 => ?_, fun h1 h2 => ?_, fun h1 => ?_⟩ <;>
    simp [resolveThemePath, h1]
  · simp [h2]
  · simp [h2]

/-- Witness for C10: a theme file existing only outside the themes directory
is accepted; a name existing nowhere errors. -/
theorem theme_file_resolution_witness :
    resolveThemePath { paths := ["/tmp/mytheme.json"] } "/ob/themes" "/tmp/mytheme.json"
        = .ok "/tmp/mytheme.json"
    ∧ resolveThemePath { paths := ["/tmp/mytheme.json"] } "/ob/themes" "nope.json"
        = .error ("Theme file not found: " ++ "nope.json") := by
  refine ⟨?_, ?_⟩
  · exact (theme_file_resolution { paths := ["/tmp/mytheme.json"] } "/ob/themes"
      "/tmp/mytheme.json").1 (by decide) (by decide)
  · exact (theme_file_resolution { paths := ["/tmp/mytheme.json"] } "/ob/themes"
      "nope.json").2.1 (by decide) (by decide)

/-- C8: when no explicit root is supplied (or the supplied one is empty or
nonexistent) and no candidate directory carries all three markers, root
resolution raises the root-not-found `ValueError`; `ThemeManager`
construction propagates it before anything is created (the world is
untouched), and `main` prints it with an `Error: ` prefix and exits with
status 1. -/
theorem root_not_found_is_fatal_before_any_action (w : World) (cwd sd : String)
    (provided : Option String)
    (hprov : ∀ p, provided = some p → p = "" ∨ pathExists w p = false)
    (hcand : ∀ c ∈ candidatePaths cwd sd, is_openbench_root w c = false) :
    find_openbench_root w cwd sd provided = .error rootErrMsg
    ∧ themeManagerInit w cwd sd provided = .error rootErrMsg
    ∧ mainInit w cwd sd provided
        = { exitCode := 1, errOutput := some ("Error: " ++ rootErrMsg), world := w } := by
  have hfind : (candidatePaths cwd sd).find? (fun p => is_openbench_root w p) = none := by
    refine List.find?_eq_none.mpr (fun c hc => ?_)
    simp [hcand c hc]
  have hroot : find_openbench_root w cwd sd provided = .error rootErrMsg := by
    cases provided with
    | none => simp [find_openbench_root, hfind, rootErrMsg]
    | some p =>
      rcases hprov p rfl with h | h <;>
        simp [find_openbench_root, hfind, rootErrMsg, h]
  exact ⟨hroot, by simp [themeManagerInit, hroot], by simp [mainInit, themeManagerInit, hroot]⟩

/-- Witness for C8: an empty world with no path argument. -/
theorem root_not_found_is_fatal_before_any_action_witness :
    (∀ c ∈ candidatePaths "/cwd" "/script", is_openbench_root { paths := [] } c = false)
    ∧ mainInit { paths := [] } "/cwd" "/script" none
        = { exitCode := 1, errOutput := some ("Error: " ++ rootErrMsg),
            world := { paths := [] } } := by
  refine ⟨by decide, ?_⟩
  exact (root_not_found_is_fatal_before_any_action { paths := [] } "/cwd" "/script" none
    (fun p h => nomatch h) (by decide)).2.2

/-- Unfolding lemma: reading from a directory with a leading entry. -/
theorem getF_cons (k : String) (p : String × List Char) (l : List (String × List Char)) :
    getF k (p :: l) = if p.1 = k then some p.2 else getF k l := by
  simp only [getF, List.find?_cons]
  by_cases h : p.1 = k <;> simp [h]

/-- Reading back the file just written. -/
theorem getF_setF_self (k : String) (v : List Char) (l : List (String × List Char)) :
    getF k (setF k v l) = some v := by
  induction l with
  | nil => simp [setF, getF_cons]
  | cons p rest ih =>
    by_cases h : p.1 = k
    · simp [setF, h, getF_cons]
    · simp [setF, h, getF_cons, ih]

/-- Writing one file does not affect reading another. -/
theorem getF_setF_ne (k k2 : String) (v : List Char) (l : List (String × List Char))
    (h : k2 ≠ k) :
    getF k2 (setF k v l) = getF k2 l := by
  have hk : ¬ (k = k2) := fun he => h he.symm
  induction l with
  | nil => simp [setF, getF_cons, hk, getF]
  | cons p rest ih =>
    by_cases hp : p.1 = k
    · have hp2 : ¬ (p.1 = k2) := by rw [hp]; exact hk
      simp [setF, hp, getF_cons, hk, hp2]
    · simp [setF, hp, getF_cons, ih]

/-- A backup snapshot contains no file outside the snapshotted list. -/
theorem getF_snap_not_mem (files : List String) (st : List (String × List Char))
    (f : String) :
    f ∉ files →
    getF f (files.filterMap (fun g => (getF g st).map (fun v => (g, v)))) = none := by
  induction files with
  | nil => intro _; simp [getF]
  | cons g gs ih =>
    intro hf
    have hfg : f ≠ g := fun he => hf (he ▸ List.mem_cons_self g gs)
    have hfgs : f ∉ gs := fun hm => hf (List.mem_cons_of_mem g hm)
    cases hg : getF g st with
    | none => simpa [List.filterMap_cons, hg] using ih hfgs
    | some v => simpa [List.filterMap_cons, hg, getF_cons, Ne.symm hfg] using ih hfgs

/-- On the snapshotted list, the backup snapshot agrees with the directory it
was taken from. -/
theorem getF_snap_mem (files : List String) (st : List (String × List Char))
    (f : String) :
    files.Nodup → f ∈ files →
    getF f (files.filterMap (fun g => (getF g st).map (fun v => (g, v)))) = getF f st := by
  induction files with
  | nil => intro _ hf; cases hf
  | cons g gs ih =>
    intro hnd hf
    have hg_not : g ∉ gs := (List.nodup_cons.mp hnd).1
    have hnd2 : gs.Nodup := (List.nodup_cons.mp hnd).2
    rcases List.mem_cons.mp hf with rfl | hfgs
    · cases hg : getF f st with
      | none => simpa [List.filterMap_cons, hg] using getF_snap_not_mem gs st f hg_not
      | some v => simp [List.filterMap_cons, hg, getF_cons]
    · have hfg : f ≠ g := fun he => hg_not (he ▸ hfgs)
      cases hg : getF g st with
      | none => simpa [List.filterMap_cons, hg] using ih hnd2 hfgs
      | some v => simpa [List.filterMap_cons, hg, getF_cons, Ne.symm hfg] using ih hnd2 hfgs

/-- The restore loop does not touch files outside its list. -/
theorem getF_copyBack_not_mem (files : List String) (bf : List (String × List Char))
    (f : String) :
    f ∉ files → ∀ st, getF f (copyBack files bf st) = getF f st := by
  induction files with
  | nil => intro _ st; simp [copyBack]
  | cons g gs ih =>
    intro hf st
    have hfg : f ≠ g := fun he => hf (he ▸ List.mem_cons_self g gs)
    have hfgs : f ∉ gs := fun hm => hf (List.mem_cons_of_mem g hm)
    cases hg : getF g bf with
    | none =>
      have hstep : copyBack (g :: gs) bf st = copyBack gs bf st := by
        simp [copyBack, hg]
      rw [hstep, ih hfgs st]
    | some v =>
      have hstep : copyBack (g :: gs) bf st = copyBack gs bf (setF g v st) := by
        simp [copyBack, hg]
      rw [hstep, ih hfgs (setF g v st), getF_setF_ne g f v st hfg]

/-- After the restore loop, a listed file holds the backup's copy when the
backup has one and is otherwise untouched. -/
theorem getF_copyBack_mem (files : List String) (bf : List (String × List Char))
    (f : String) :
    files.Nodup → f ∈ files →
    ∀ st, getF f (copyBack files bf st) = (getF f bf).or (getF f st) := by
  induction files with
  | nil => intro _ hf; cases hf
  | cons g gs ih =>
    intro hnd hf st
    have hg_not : g ∉ gs := (List.nodup_cons.mp hnd).1
    have hnd2 : gs.Nodup := (List.nodup_cons.mp hnd).2
    rcases List.mem_cons.mp hf with rfl | hfgs
    · cases hg : getF f bf with
      | none =>
        have hstep : copyBack (f :: gs) bf st = copyBack gs bf st := by
          simp [copyBack, hg]
        rw [hstep, getF_copyBack_not_mem gs bf f hg_not st, Option.none_or]
      | some v =>
        have hstep : copyBack (f :: gs) bf st = copyBack gs bf (setF f v st) := by
          simp [copyBack, hg]
        rw [hstep, getF_copyBack_not_mem gs bf f hg_not (setF f v st), getF_setF_self]
        rfl
    · have hfg : f ≠ g := fun he => hg_not (he ▸ hfgs)
      cases hg : getF g bf with
      | none =>
        have hstep : copyBack (g :: gs) bf st = copyBack gs bf st := by
          simp [copyBack, hg]
        rw [hstep, ih hnd2 hfgs st]
      | some v =>
        have hstep : copyBack (g :: gs) bf st = copyBack gs bf (setF g v st) := by
          simp [copyBack, hg]
        rw [hstep, ih hnd2 hfgs (setF g v st), getF_setF_ne g f v st hfg]

/-- A `backup_<ts>` directory name is never the sentinel `latest`. -/
theorem backupName_ne_latest (ts : String) : ¬ ("backup_" ++ ts = "latest") := by
  intro h
  have hd : ("backup_" ++ ts).data = "latest".data := by rw [h]
  rw [String.data_append] at hd
  have hb : "backup_".data = 'b' :: "ackup_".data := rfl
  have hl : "latest".data = 'l' :: "atest".data := rfl
  rw [hb, hl] at hd
  exact absurd (List.cons.inj hd).1 (by decide)

/-- C3: back up, mutate the stylesheet via apply, then restore that same
backup directory: every CSS file of the static directory is back to its
pre-apply bytes (files absent before are still absent — restore silently
skips them, and the apply only rewrote `style.css`, which the backup had
copied). -/
theorem backup_apply_restore_roundtrip (fs : FS) (t : Theme) (tf ts : String) (mt : Nat)
    (css0 : List Char) (fs2 : FS)
    (hfresh : ∀ b ∈ fs.backups, ¬ b.name = "backup_" ++ ts)
    (hstyle : getF "style.css" fs.static = some css0)
    (happly : apply_theme_fs t tf (backup_current ts mt fs).1 = some fs2) :
    ∀ f ∈ css_files,
      getF f ((restore_backup ("backup_" ++ ts) fs2).1.static) = getF f fs.static := by
  have hany : (fs.backups.any (fun b => b.name = "backup_" ++ ts)) = false := by
    rw [List.any_eq_false]
    intro b hb
    simp [hfresh b hb]
  have hfs1 : (backup_current ts mt fs).1
      = { fs with backups := fs.backups ++
            [{ name := "backup_" ++ ts, mtime := mt,
               files := css_files.filterMap
                 (fun g => (getF g fs.static).map (fun v => (g, v))) }] } := by
    simp [backup_current, hany]
  rw [hfs1] at happly
  cases hac : applyContent t css0 with
  | none => simp [apply_theme_fs, hstyle, hac] at happly
  | some m =>
    have hfs2 : fs2
        = { static := setF "style.css" m fs.static,
            backups := fs.backups ++
              [{ name := "backup_" ++ ts, mtime := mt,
                 files := css_files.filterMap
                   (fun g => (getF g fs.static).map (fun v => (g, v))) }],
            config := (update_static_version fs.config (themeNameOf tf.data)).1 } := by
      simp [apply_theme_fs, hstyle, hac] at happly
      exact happly.symm
    intro f hf
    have hne : ¬ ("backup_" ++ ts = "latest") := backupName_ne_latest ts
    have hfind : fs2.backups.find? (fun b => b.name = "backup_" ++ ts)
        = some { name := "backup_" ++ ts, mtime := mt,
                 files := css_files.filterMap
                   (fun g => (getF g fs.static).map (fun v => (g, v))) } := by
      rw [hfs2]
      rw [List.find?_append]
      have h1 : fs.backups.find? (fun b => b.name = "backup_" ++ ts) = none :=
        List.find?_eq_none.mpr (fun b hb => by simp [hfresh b hb])
      simp [h1]
    have hres : (restore_backup ("backup_" ++ ts) fs2).1.static
        = copyBack css_files
            (css_files.filterMap (fun g => (getF g fs.static).map (fun v => (g, v))))
            fs2.static := by
      simp [restore_backup, resolveBackup, hne, hfind]
    rw [hres]
    have hnd : css_files.Nodup := by decide
    rw [getF_copyBack_mem css_files _ f hnd hf fs2.static]
    rw [getF_snap_mem css_files fs.static f hnd hf]
    cases hfv : getF f fs.static with
    | some v => simp [Option.or]
    | none =>
      have hfne : f ≠ "style.css" := by
        intro he
        rw [he, hstyle] at hfv
        cases hfv
      have hst2 : fs2.static = setF "style.css" m fs.static := by rw [hfs2]
      simp [Option.or, hst2, getF_setF_ne "style.css" f m fs.static hfne, hfv]

/-- Witness for C3 at a concrete filesystem, theme, and timestamp. -/
theorem backup_apply_restore_roundtrip_witness :
    (∀ b ∈ fs3w.backups, ¬ b.name = "backup_" ++ "20250101_120000")
    ∧ getF "style.css" fs3w.static = some smallCss
    ∧ apply_theme_fs canonicalTheme "theme_navy_blue.json"
        (backup_current "20250101_120000" 5 fs3w).1 = some fs3wApplied
    ∧ ∀ f ∈ css_files,
        getF f ((restore_backup ("backup_" ++ "20250101_120000") fs3wApplied).1.static)
          = getF f fs3w.static := by
  refine ⟨by decide, by decide, by decide, ?_⟩
  exact backup_apply_restore_roundtrip fs3w canonicalTheme "theme_navy_blue.json"
    "20250101_120000" 5 smallCss fs3wApplied (by decide) (by decide) (by decide)

/-- A sequence of backups with fresh names leaves the static files and config
untouched and appends one snapshot directory per call, each carrying the
(unchanging) CSS files and its own timestamp. -/
theorem backup_fold_spec (bs : List (String × Nat)) (fs : FS)
    (hfresh : ∀ p ∈ bs, ∀ b ∈ fs.backups, ¬ b.name = "backup_" ++ p.1)
    (hnodup : (bs.map (fun p => "backup_" ++ p.1)).Nodup) :
    (bs.foldl (fun s p => (backup_current p.1 p.2 s).1) fs).static = fs.static
    ∧ (bs.foldl (fun s p => (backup_current p.1 p.2 s).1) fs).config = fs.config
    ∧ (bs.foldl (fun s p => (backup_current p.1 p.2 s).1) fs).backups
        = fs.backups ++ bs.map (fun p =>
            { name := "backup_" ++ p.1, mtime := p.2,
              files := css_files.filterMap
                (fun g => (getF g fs.static).map (fun v => (g, v))) }) := by
  induction bs generalizing fs with
  | nil => simp
  | cons p ps ih =>
    have hany : (fs.backups.any (fun b => b.name = "backup_" ++ p.1)) = false := by
      rw [List.any_eq_false]
      intro b hb
      simp [hfresh p (by simp) b hb]
    have hfs1 : (backup_current p.1 p.2 fs).1
        = { fs with backups := fs.backups ++
              [{ name := "backup_" ++ p.1, mtime := p.2,
                 files := css_files.filterMap
                   (fun g => (getF g fs.static).map (fun v => (g, v))) }] } := by
      simp [backup_current, hany]
    have hnotin : "backup_" ++ p.1 ∉ ps.map (fun q => "backup_" ++ q.1) :=
      (List.nodup_cons.mp (by simpa using hnodup)).1
    have hfresh2 : ∀ q ∈ ps, ∀ b ∈ ((backup_current p.1 p.2 fs).1).backups,
        ¬ b.name = "backup_" ++ q.1 := by
      intro q hq b hb
      rw [hfs1] at hb
      rcases List.mem_append.mp hb with hb1 | hb2
      · exact hfresh q (by simp [hq]) b hb1
      · have hbe : b.name = "backup_" ++ p.1 := by
          rcases List.mem_singleton.mp hb2 with rfl
          rfl
        rw [hbe]
        intro he
        exact hnotin (he ▸ List.mem_map_of_mem (fun q => "backup_" ++ q.1) hq)
    have hnodup2 : (ps.map (fun q => "backup_" ++ q.1)).Nodup :=
      (List.nodup_cons.mp (by simpa using hnodup)).2
    have hmain := ih ((backup_current p.1 p.2 fs).1) hfresh2 hnodup2
    rw [hfs1] at hmain
    simp only [List.foldl_cons]
    rw [hfs1]
    simpa [List.append_assoc] using hmain

/-- Stable sorting by mtime leaves an already strictly increasing list as it
is. -/
theorem sortByMtime_of_sorted (l : List Backup)
    (h : l.Pairwise (fun a b => a.mtime < b.mtime)) : sortByMtime l = l := by
  induction l with
  | nil => rfl
  | cons x xs ih =>
    have hx : ∀ b ∈ xs, x.mtime < b.mtime := (List.pairwise_cons.mp h).1
    have hxs := (List.pairwise_cons.mp h).2
    rw [sortByMtime, ih hxs]
    cases xs with
    | nil => rfl
    | cons y ys =>
      have hle : x.mtime ≤ y.mtime := le_of_lt (hx y (by simp))
      simp [insertByMtime, hle]

/-- C6: after a sequence of backups with strictly increasing modification
times (sequential calls) and fresh names, restoring `latest` restores from
the last backup taken (its CSS files come back over the static directory —
since backups never mutate the static directory, every file returns to its
current content); restoring a name that matches no backup directory reports
it (`none`) and returns with the filesystem untouched and no exception. -/
theorem restore_latest_picks_most_recent (fs0 : FS) (h0 : fs0.backups = [])
    (bs : List (String × Nat)) (hne : bs ≠ [])
    (hnodup : (bs.map (fun p => "backup_" ++ p.1)).Nodup)
    (hinc : (bs.map Prod.snd).Pairwise (· < ·))
    (fsN : FS) (hfsN : fsN = bs.foldl (fun s p => (backup_current p.1 p.2 s).1) fs0) :
    (restore_backup "latest" fsN).2 = (bs.getLast?).map (fun p => "backup_" ++ p.1)
    ∧ (∀ f ∈ css_files,
        getF f ((restore_backup "latest" fsN).1.static) = getF f fs0.static)
    ∧ (∀ nm, ¬ nm = "latest" → (∀ b ∈ fsN.backups, ¬ b.name = nm) →
        restore_backup nm fsN = (fsN, none)) := by
  obtain ⟨hstat, hconf, hback⟩ :=
    backup_fold_spec bs fs0 (by rw [h0]; intro p _ b hb; cases hb) hnodup
  rw [← hfsN] at hstat hconf hback
  rw [h0, List.nil_append] at hback
  have hsorted : fsN.backups.Pairwise (fun a b => a.mtime < b.mtime) := by
    rw [hback, List.pairwise_map]
    have := (List.pairwise_map (R := (· < · : Nat → Nat → Prop))).mp hinc
    exact this.imp (fun hab => hab)
  have hsort : sortByMtime fsN.backups = fsN.backups := sortByMtime_of_sorted _ hsorted
  obtain ⟨lastp, hlastp⟩ : ∃ p, bs.getLast? = some p := by
    cases hl : bs.getLast? with
    | none => exact absurd (List.getLast?_eq_none_iff.mp hl) hne
    | some p => exact ⟨p, rfl⟩
  have hlastB : fsN.backups.getLast?
      = some { name := "backup_" ++ lastp.1, mtime := lastp.2,
               files := css_files.filterMap
                 (fun g => (getF g fs0.static).map (fun v => (g, v))) } := by
    rw [hback, List.getLast?_map, hlastp]
    rfl
  have hres : restore_backup "latest" fsN
      = ({ fsN with
            static := copyBack css_files
              (css_files.filterMap (fun g => (getF g fs0.static).map (fun v => (g, v))))
              fsN.static,
            config := (update_static_version fsN.config "restored".data).1 },
         some ("backup_" ++ lastp.1)) := by
    simp [restore_backup, resolveBackup, hsort, hlastB]
  refine ⟨?_, ?_, ?_⟩
  · rw [hres, hlastp]
    rfl
  · intro f hf
    rw [hres]
    have hnd : css_files.Nodup := by decide
    show getF f (copyBack css_files _ fsN.static) = getF f fs0.static
    rw [getF_copyBack_mem css_files _ f hnd hf fsN.static,
      getF_snap_mem css_files fs0.static f hnd hf, hstat]
    cases getF f fs0.static <;> rfl
  · intro nm hnm hnone
    have hfind : fsN.backups.find? (fun b => b.name = nm) = none :=
      List.find?_eq_none.mpr (fun b hb => by simp [hnone b hb])
    simp [restore_backup, resolveBackup, hnm, hfind]

/-- Witness for C6: two sequential backups, then a `latest` restore and a
restore of a name that exists nowhere. -/
theorem restore_latest_picks_most_recent_witness :
    fs6w.backups = []
    ∧ (bs6w.map (fun p => "backup_" ++ p.1)).Nodup
    ∧ (bs6w.map Prod.snd).Pairwise (· < ·)
    ∧ (restore_backup "latest" fs6wN).2 = some ("backup_" ++ "b")
    ∧ restore_backup "nope" fs6wN = (fs6wN, none) := by
  have h := restore_latest_picks_most_recent fs6w rfl bs6w (by decide) (by decide)
    (by decide) fs6wN rfl
  refine ⟨rfl, by decide, by decide, ?_, ?_⟩
  · rw [h.1]
    rfl
  · exact h.2.2 "nope" (by decide) (by decide)

/-- Overwriting a file with the content it already has changes nothing. -/
theorem setF_of_getF (k : String) (v : List Char) (l : List (String × List Char))
    (h : getF k l = some v) : setF k v l = l := by
  induction l with
  | nil => simp [getF] at h
  | cons p rest ih =>
    rw [getF_cons] at h
    by_cases hp : p.1 = k
    · rw [if_pos hp] at h
      cases p with
      | mk p1 p2 =>
        cases hp
        cases h
        simp [setF]
    · rw [if_neg hp] at h
      simp [setF, hp, ih h]

/-- The restore loop is the identity on a directory that already holds every
backed-up file's content. -/
theorem copyBack_eq_self (files : List String) (bf : List (String × List Char)) :
    ∀ st, (∀ f ∈ files, ∀ v, getF f bf = some v → getF f st = some v) →
    copyBack files bf st = st := by
  induction files with
  | nil => intro st _; rfl
  | cons g gs ih =>
    intro st h
    cases hg : getF g bf with
    | none =>
      have hstep : copyBack (g :: gs) bf st = copyBack gs bf st := by
        simp [copyBack, hg]
      rw [hstep]
      exact ih st (fun f hf v hv => h f (by simp [hf]) v hv)
    | some v =>
      have hset : setF g v st = st := setF_of_getF g v st (h g (by simp) v hg)
      have hstep : copyBack (g :: gs) bf st = copyBack gs bf (setF g v st) := by
        simp [copyBack, hg]
      rw [hstep, hset]
      exact ih st (fun f hf v2 hv => h f (by simp [hf]) v2 hv)

/-- Running the restore loop twice equals running it once. -/
theorem copyBack_idem (files : List String) (bf st : List (String × List Char))
    (hnd : files.Nodup) :
    copyBack files bf (copyBack files bf st) = copyBack files bf st := by
  apply copyBack_eq_self
  intro f hf v hv
  rw [getF_copyBack_mem files bf f hnd hf st, hv]
  rfl

/-- C7 (counterexample): applying the same theme twice does not always equal
applying it once.  With an 8-hex-digit color value — a legal CSS hex color,
and the data model only constrains values to be hex color strings — the
second apply re-matches the first six digits of the substituted color and
duplicates the tail, so the end state after two applies differs from the end
state after one. -/
theorem apply_twice_differs_refuting_unconditional_idempotence :
    apply_theme_fs theme8hex "theme_x.json" fs7 = some fs7a
    ∧ apply_theme_fs theme8hex "theme_x.json" fs7a = some fs7b
    ∧ ¬ (fs7b = fs7a) := by
  exact ⟨rfl, rfl, by decide⟩

/-- C7 (amended): applying the same theme twice equals applying it once when
the theme's color values are `#` plus exactly six hex digits (shown on a
spec-modelled stylesheet exercising the variable and button rules, with the
spec-modelled theme and config, version token included);
restoring the same backup twice equals restoring it once — unconditionally
for the restored CSS bytes and the reported source, and including the version
token on the spec-modelled config; backup creation is the exception and
appends a new directory per fresh timestamp. -/
theorem apply_and_restore_idempotent_for_six_hex_themes :
    (apply_theme_fs canonicalTheme "theme_navy_blue.json" fs7v = some fs7v1
      ∧ apply_theme_fs canonicalTheme "theme_navy_blue.json" fs7v1 = some fs7v1)
    ∧ (∀ nm fs, (restore_backup nm (restore_backup nm fs).1).1.static
          = (restore_backup nm fs).1.static
        ∧ (restore_backup nm (restore_backup nm fs).1).2 = (restore_backup nm fs).2)
    ∧ restore_backup "backup_a" (restore_backup "backup_a" fs7r).1
        = restore_backup "backup_a" fs7r
    ∧ (∀ ts mt fs, ((backup_current ts mt fs).1).backups.length
        = fs.backups.length
          + (if fs.backups.any (fun b => b.name = "backup_" ++ ts) then 0 else 1)) := by
  refine ⟨⟨rfl, rfl⟩, ?_, by decide, ?_⟩
  · intro nm fs
    cases htar : resolveBackup nm fs.backups with
    | none => simp [restore_backup, htar]
    | some b =>
      have hr1 : restore_backup nm fs
          = (({ fs with
                static := copyBack css_files b.files fs.static,
                config := (update_static_version fs.config "restored".data).1 } : FS),
             some b.name) := by
        simp [restore_backup, htar]
      have hr2 : restore_backup nm (restore_backup nm fs).1
          = (({ static := copyBack css_files b.files
                  (copyBack css_files b.files fs.static),
                backups := fs.backups,
                config := (update_static_version
                  ((update_static_version fs.config "restored".data).1)
                  "restored".data).1 } : FS),
             some b.name) := by
        rw [hr1]
        simp [restore_backup, htar]
      constructor
      · rw [hr2, hr1]
        exact copyBack_idem css_files b.files fs.static (by decide)
      · rw [hr2, hr1]
  · intro ts mt fs
    by_cases happ : fs.backups.any (fun b => b.name = "backup_" ++ ts)
    · simp [backup_current, happ]
    · simp [backup_current, happ]

/-- C2 (counterexample): a theme descriptor whose `ui_elements` lacks the
`sidebar_hover` key referenced by a substitution rule.  The claim predicts
the substitution is skipped and `apply_theme` completes; in fact the dict
subscription `ui["sidebar_hover"]` raises `KeyError` while the replacement
list is being built, so `apply_theme` aborts (`none`) and no substitution at
all is applied. -/
theorem skipping_missing_keys_refuted :
    applyContent themeNoSidebar (cssTemplate origPalette) = none := by
  decide

/-- C2 (amended): for every theme whose `ui_elements` lacks a referenced key
(here `sidebar_hover`), `apply_theme` raises `KeyError` while building the
replacement list and aborts without applying any substitution, rather than
skipping that rule; only absent `backgrounds`/`text` variables merely
contribute no rule. -/
theorem missing_referenced_key_aborts_apply (t : Theme) (css : List Char)
    (h : getK "sidebar_hover" t.ui_elements = none) :
    applyContent t css = none := by
  have hstruct : structuralRules t = none := by
    unfold structuralRules
    cases hl : getK "default" t.links <;> simp [hl, h]
  simp [applyContent, buildReplacements, hstruct]

/-- Witness for the amended C2 at the concrete descriptor. -/
theorem missing_referenced_key_aborts_apply_witness :
    getK "sidebar_hover" themeNoSidebar.ui_elements = none
    ∧ applyContent themeNoSidebar smallCss = none := by
  refine ⟨by decide, ?_⟩
  exact missing_referenced_key_aborts_apply themeNoSidebar smallCss (by decide)

/-- A rule whose pattern matches at no position of `s` rewrites nothing:
`re.sub` leaves the text byte-for-byte unchanged and raises nothing. -/
theorem reSubAux_eq_self (r : Rule) (fuel : Nat) (s : List Char)
    (h : ∀ i < s.length, matchPat r.pat (s.drop i) = none) :
    reSubAux r fuel s = s := by
  induction fuel generalizing s with
  | zero => rfl
  | succ fuel ih =>
    cases s with
    | nil => rfl
    | cons c cs =>
      have h0 : matchPat r.pat (c :: cs) = none := by
        simpa using h 0 (by simp)
      have hrest : ∀ i < cs.length, matchPat r.pat (cs.drop i) = none := by
        intro i hi
        simpa [List.drop_succ_cons] using h (i + 1) (by simpa using Nat.succ_lt_succ hi)
      unfold reSubAux
      simp [h0, ih cs hrest]

/-- C5: with a well-formed theme (the replacement list builds), `apply_theme`
always succeeds — a pattern that fails to match is not an error — and any
rule whose pattern matches nowhere in the stylesheet leaves the stylesheet
byte-for-byte unchanged at its `re.sub` step: a silent no-op for that rule. -/
theorem unmatched_selector_is_a_silent_noop (t : Theme) (css : List Char) (r : Rule)
    (hkeys : (buildReplacements t).isSome = true)
    (hnm : ∀ i < css.length, matchPat r.pat (css.drop i) = none) :
    (applyContent t css).isSome = true ∧ reSub r css = css := by
  constructor
  · cases hb : buildReplacements t with
    | none => rw [hb] at hkeys; simp at hkeys
    | some rules => simp [applyContent, hb]
  · exact reSubAux_eq_self r css.length css hnm

/-- Witness for C5: the sidebar rule against a stylesheet lacking the
`#sidebar li:hover` block. -/
theorem unmatched_selector_is_a_silent_noop_witness :
    (buildReplacements canonicalTheme).isSome = true
    ∧ (∀ i < cssNoSidebar.length, matchPat wSidebarRule.pat (cssNoSidebar.drop i) = none)
    ∧ (applyContent canonicalTheme cssNoSidebar).isSome = true
    ∧ reSub wSidebarRule cssNoSidebar = cssNoSidebar := by
  have h := unmatched_selector_is_a_silent_noop canonicalTheme cssNoSidebar wSidebarRule
    (by decide) (by decide)
  exact ⟨by decide, by decide, h.1, h.2⟩

end OBTheme
